import Mathlib

/-!
Verification development for the proovid backend.

Shallow embedding of the job-lifecycle, analysis-worker, retrieval and
conversational components, with theorems settling the specification claims.
External collaborators (DynamoDB, SQS, S3, Rekognition, Bedrock) are passed
in as explicit data or environment parameters; the Python code that consumes
them is translated function by function.
-/

set_option maxRecDepth 16384

namespace Proovid

/-! ## Python string primitives, modelled over character lists -/

/-- Python substring test `pat in s`, over char lists (structural, so the
kernel can evaluate it). -/
def listIsInfix (pat : List Char) : List Char → Bool
  | [] => pat.isEmpty
  | c :: tl => pat.isPrefixOf (c :: tl) || listIsInfix pat tl

/-- Python `pat in s` on strings. -/
def pyIn (pat s : String) : Bool := listIsInfix pat.data s.data

/-- Python `s.lower()`. -/
def pyLower (s : String) : String := String.mk (s.data.map Char.toLower)

/-- Python `s.upper()`. -/
def pyUpper (s : String) : String := String.mk (s.data.map Char.toUpper)

/-- Python `s.capitalize()`: first char upper-cased, rest lower-cased. -/
def pyCapitalize (s : String) : String :=
  match s.data with
  | [] => ""
  | c :: cs => String.mk (c.toUpper :: cs.map Char.toLower)

/-- Helper for whitespace splitting: accumulates the current word reversed. -/
def splitWsAux : List Char → List Char → List (List Char)
  | [], acc => if acc.isEmpty then [] else [acc.reverse]
  | c :: cs, acc =>
    if c.isWhitespace then
      if acc.isEmpty then splitWsAux cs [] else acc.reverse :: splitWsAux cs []
    else
      splitWsAux cs (c :: acc)

/-- Python `s.split()` with no argument: split on whitespace runs, dropping
empty tokens. -/
def pySplit (s : String) : List String := (splitWsAux s.data []).map String.mk

/-! ### Kernel-computable rational arithmetic

The source computes float scores (all of them exact multiples of one half),
percentages and timestamps; we model them as exact rationals.  The standard
`Rat.add`/`Rat.mul`/`Rat.div` do not reduce inside the kernel, so the
embedding uses the following wrappers, proved equal to the standard
operations below, which lets concrete runs be checked by `decide`. -/

/-- Rational addition via `mkRat` (kernel-computable; equals `a + b`). -/
def qAdd (a b : Rat) : Rat := mkRat (a.num * b.den + b.num * a.den) (a.den * b.den)

/-- Rational multiplication via `mkRat` (kernel-computable; equals `a * b`). -/
def qMul (a b : Rat) : Rat := mkRat (a.num * b.num) (a.den * b.den)

/-- Rational division via `mkRat` (kernel-computable; equals `a / b`). -/
def qDiv (a b : Rat) : Rat :=
  mkRat (a.num * b.den * (if b.num < 0 then -1 else 1)) (a.den * b.num.natAbs)

theorem qAdd_eq (a b : Rat) : qAdd a b = a + b := by
  rw [qAdd, Rat.mkRat_eq_div]
  have ha : ((a.den : Rat)) ≠ 0 := by exact_mod_cast a.den_nz
  have hb : ((b.den : Rat)) ≠ 0 := by exact_mod_cast b.den_nz
  have ha' : (a.num : Rat) = a * a.den := (div_eq_iff ha).mp (Rat.num_div_den a)
  have hb' : (b.num : Rat) = b * b.den := (div_eq_iff hb).mp (Rat.num_div_den b)
  push_cast
  rw [div_eq_iff (mul_ne_zero ha hb), ha', hb']
  ring

theorem qMul_eq (a b : Rat) : qMul a b = a * b := by
  rw [qMul, Rat.mkRat_eq_div]
  have ha : ((a.den : Rat)) ≠ 0 := by exact_mod_cast a.den_nz
  have hb : ((b.den : Rat)) ≠ 0 := by exact_mod_cast b.den_nz
  have ha' : (a.num : Rat) = a * a.den := (div_eq_iff ha).mp (Rat.num_div_den a)
  have hb' : (b.num : Rat) = b * b.den := (div_eq_iff hb).mp (Rat.num_div_den b)
  push_cast
  rw [div_eq_iff (mul_ne_zero ha hb), ha', hb']
  ring

theorem qDiv_eq (a b : Rat) : qDiv a b = a / b := by
  by_cases hb0 : b = 0
  · subst hb0
    rw [qDiv]
    norm_num
  · have hbnum : b.num ≠ 0 := Rat.num_ne_zero.mpr hb0
    have ha : ((a.den : Rat)) ≠ 0 := by exact_mod_cast a.den_nz
    have hbden : ((b.den : Rat)) ≠ 0 := by exact_mod_cast b.den_nz
    have ha' : (a.num : Rat) = a * a.den := (div_eq_iff ha).mp (Rat.num_div_den a)
    have hb' : (b.num : Rat) = b * b.den := (div_eq_iff hbden).mp (Rat.num_div_den b)
    have hbnumQ : ((b.num : Rat)) ≠ 0 := by exact_mod_cast hbnum
    rw [qDiv, Rat.mkRat_eq_div]
    rcases lt_or_ge b.num 0 with h | h
    · have hQ : ((b.num : Rat)) < 0 := by exact_mod_cast h
      rw [if_pos h]
      push_cast [Int.cast_natAbs]
      rw [abs_of_neg hQ]
      rw [div_eq_div_iff (mul_ne_zero ha (neg_ne_zero.mpr hbnumQ)) hb0]
      rw [ha', hb']
      ring
    · have hQ : (0 : Rat) ≤ (b.num : Rat) := by exact_mod_cast h
      rw [if_neg (not_lt.mpr h)]
      push_cast [Int.cast_natAbs]
      rw [abs_of_nonneg hQ]
      rw [div_eq_div_iff (mul_ne_zero ha hbnumQ) hb0]
      rw [ha', hb']
      ring

/-- Python truthiness of an optional string (`None` and `""` are falsy). -/
def optTruthy : Option String → Bool
  | some s => !(s == "")
  | none => false

/-- Python `x or d` for an optional string `x`. -/
def optOr (o : Option String) (d : String) : String :=
  match o with
  | some s => if s.isEmpty then d else s
  | none => d

/-! ## Data model of the search view of the job table

`CostOptimizedAWSVectorDB` reads the job table through the searchable fields
written by `store_video_analysis`.  One record of that view: -/

structure SearchItem where
  job_id : String
  user_id : Option String
  session_id : Option String
  s3_key : String
  s3_bucket : String
  searchable_content : String
  semantic_tags : List String
  text_content : List String
  has_labels : Bool
  has_text : Bool
  has_blackframes : Bool
  analysis_type : String
  /-- `item.get("summary", \x7b\x7d).get("blackframes_count", 0)` flattened. -/
  blackframes_count : Nat
  search_updated_at : Nat
  updated_at : Nat
  deriving Repr, DecidableEq

/-- One entry of the list returned by `semantic_search` (the `metadata`
dictionary is flattened into the record). -/
structure SearchResult where
  job_id : String
  score : Rat
  video_key : String
  bucket : String
  semantic_tags : List String
  analysis_type : String
  has_labels : Bool
  has_text : Bool
  has_blackframes : Bool
  blackframes_count : Nat
  timestamp : Nat
  text_content : List String
  document : String
  deriving Repr, DecidableEq

/-! ## `cost_optimized_aws_vector.py`: CostOptimizedAWSVectorDB.semantic_search -/

/-- The German question-word stopword set of `semantic_search`. -/
def stopwords : List String :=
  ["welche", "videos", "enthalten", "zeig", "mir", "mit", "haben", "gibt",
   "das", "die", "der", "den", "eine", "einen", "sind", "wie", "was", "wo",
   "wer", "wann", "warum"]

/-- The German-English synonym table of `semantic_search`; a word absent from
the table maps to `[]`. -/
def synonymsOf : String → List String
  | "autos" => ["car", "vehicle", "transportation", "automobile"]
  | "auto" => ["car", "vehicle", "transportation"]
  | "cars" => ["car", "vehicle", "transportation", "automobile"]
  | "car" => ["car", "vehicle", "transportation"]
  | "fahrzeug" => ["car", "vehicle", "transportation"]
  | "fahrzeuge" => ["car", "vehicle", "transportation"]
  | "personen" => ["person", "people", "man", "woman", "human", "adult"]
  | "person" => ["person", "people", "man", "woman", "human", "adult"]
  | "persons" => ["person", "people", "man", "woman", "human", "adult"]
  | "people" => ["person", "people", "man", "woman", "human", "adult"]
  | "leute" => ["person", "people", "man", "woman", "human", "adult"]
  | "menschen" => ["person", "people", "man", "woman", "human", "adult"]
  | "parfum" => ["perfume", "fragrance", "cosmetics", "beauty"]
  | "parfüm" => ["perfume", "fragrance", "cosmetics", "beauty"]
  | "sport" => ["sports", "athletic", "fitness"]
  | "straße" => ["road", "street", "highway", "freeway"]
  | "strasse" => ["road", "street", "highway", "freeway"]
  | "gebäude" => ["building", "architecture", "structure"]
  | "haus" => ["building", "house", "architecture"]
  | "natur" => ["nature", "outdoors", "landscape"]
  | "wasser" => ["water", "aquatic", "liquid"]
  | "tier" => ["animal", "pet", "creature"]
  | "tiere" => ["animal", "pet", "creature"]
  | "kleidung" => ["clothing", "coat", "apparel"]
  | "logo" => ["logo", "emblem", "symbol", "brand"]
  | "text" => ["text", "writing", "license plate"]
  | "blau" => ["blue"]
  | "blaues" => ["blue"]
  | "blauer" => ["blue"]
  | "blauen" => ["blue"]
  | "blue" => ["blue"]
  | "rot" => ["red"]
  | "rotes" => ["red"]
  | "roter" => ["red"]
  | "roten" => ["red"]
  | "red" => ["red"]
  | "weiß" => ["white"]
  | "weiss" => ["white"]
  | "white" => ["white"]
  | "schwarz" => ["black"]
  | "black" => ["black"]
  | "grün" => ["green"]
  | "gruen" => ["green"]
  | "green" => ["green"]
  | _ => []

/-- Trigger words of the `intent_text` pre-check. -/
def intentTextWords : List String :=
  ["text", "schrift", "ocr", "kennzeichen", "license plate"]

/-- Trigger words of the `intent_blackframes` pre-check. -/
def intentBlackWords : List String :=
  ["blackframe", "black frame", "schwarze", "schwarzen", "dunkle",
   "dark frame", "blackframes"]

/-- Keyword extraction loop of `semantic_search`: keep words longer than two
characters that are not stopwords, and additively append their synonyms. -/
def buildQueryKeywords (ws : List String) : List String :=
  ws.flatMap fun w =>
    if w.length > 2 && !(stopwords.contains w) then w :: synonymsOf w else []

/-- The multi-tenant part of the scan filter: `user_id` / `session_id`
equality conditions, each applied only when the argument is truthy. -/
def tenantFilter (user_id session_id : Option String) (it : SearchItem) : Bool :=
  (if optTruthy user_id then it.user_id == user_id else true)
  && (if optTruthy session_id then it.session_id == session_id else true)

/-- `_calculate_match_score`: +1.0 per keyword in the searchable content,
+2.0 per keyword/tag containment pair, +1.5 per keyword found in a text
snippet, +0.5 per exact whole-word match. -/
def calculate_match_score (it : SearchItem) (kws : List String) : Rat :=
  let content := pyLower it.searchable_content
  let s1 := kws.foldl (fun acc kw => if pyIn kw content then qAdd acc 1 else acc) (0 : Rat)
  let s2 := it.semantic_tags.foldl
    (fun acc tag =>
      let tl := pyLower tag
      kws.foldl (fun a kw => if pyIn kw tl || pyIn tl kw then qAdd a 2 else a) acc) s1
  let s3 := it.text_content.foldl
    (fun acc tx =>
      let tl := pyLower tx
      kws.foldl (fun a kw => if pyIn kw tl then qAdd a (mkRat 3 2) else a) acc) s2
  kws.foldl (fun acc kw => if (pySplit content).contains kw then qAdd acc (mkRat 1 2) else acc) s3

/-- Build one result record from a scanned item and its score. -/
def mkSearchResult (it : SearchItem) (score : Rat) : SearchResult :=
  { job_id := it.job_id
    score := score
    video_key := it.s3_key
    bucket := it.s3_bucket
    semantic_tags := it.semantic_tags
    analysis_type := it.analysis_type
    has_labels := it.has_labels
    has_text := it.has_text
    has_blackframes := it.has_blackframes
    blackframes_count := it.blackframes_count
    timestamp := it.search_updated_at
    text_content := it.text_content
    document := it.searchable_content }

/-- Stable insert for a descending sort by a rational key: `x` passes over
exactly the elements with a strictly larger key. -/
def insertDescBy {α : Type} (f : α → Rat) (x : α) : List α → List α
  | [] => [x]
  | y :: ys => if f y > f x then y :: insertDescBy f x ys else x :: y :: ys

/-- Stable descending sort by a rational key; extensionally the behaviour of
Python `list.sort(key=..., reverse=True)` (Timsort is stable). -/
def sortDescBy {α : Type} (f : α → Rat) : List α → List α
  | [] => []
  | x :: xs => insertDescBy f x (sortDescBy f xs)

/-- The scan filter predicate chosen by `semantic_search`, or `none` when the
code leaves `FilterExpression = None` (no keywords and no intent), in which
case the boto3 scan call raises and the surrounding `except` returns `[]`. -/
def scanPredicate (query_keywords : List String) (intent_text intent_black : Bool)
    (user_id session_id : Option String) : Option (SearchItem → Bool) :=
  if intent_text && query_keywords.isEmpty then
    some fun it => it.has_text && tenantFilter user_id session_id it
  else if intent_black && query_keywords.isEmpty then
    some fun it => it.has_blackframes && tenantFilter user_id session_id it
  else if !query_keywords.isEmpty then
    some fun it =>
      ((query_keywords.take 5).any fun kw =>
        pyIn (pyLower kw) it.searchable_content
        || pyIn (pyUpper kw) it.searchable_content
        || pyIn (pyCapitalize kw) it.searchable_content)
      && tenantFilter user_id session_id it
  else
    none

/-- The keywords `semantic_search` extracts from the query, including the
fallback to all words longer than two characters. -/
def queryKeywordsOf (query : String) : List String :=
  let query_words := pySplit (pyLower query)
  let kws0 := buildQueryKeywords query_words
  if kws0.isEmpty then query_words.filter (fun w => w.length > 2) else kws0

/-- The list `scored_results` built by `semantic_search` before sorting: scan
the table (the DynamoDB scan `Limit=100` bounds the items examined before
filtering), score each surviving item and drop zero scores. -/
def scored_results (store : List SearchItem) (query : String)
    (user_id session_id : Option String) : List SearchResult :=
  let query_lower := pyLower query
  let intent_text := intentTextWords.any fun w => pyIn w query_lower
  let intent_black := intentBlackWords.any fun w => pyIn w query_lower
  let query_keywords := queryKeywordsOf query
  match scanPredicate query_keywords intent_text intent_black user_id session_id with
  | none => []
  | some p =>
    let items := (store.take 100).filter p
    items.filterMap fun it =>
      let s := calculate_match_score it query_keywords
      if s > 0 then some (mkSearchResult it s) else none

/-- `CostOptimizedAWSVectorDB.semantic_search`: scored candidates, sorted by
score descending (Python stable sort) and truncated to `limit`. -/
def semantic_search (store : List SearchItem) (query : String) (limit : Nat)
    (user_id session_id : Option String) : List SearchResult :=
  (sortDescBy (fun r => r.score) (scored_results store query user_id session_id)).take limit

/-- `semantic_search_videos` (the `/semantic-search` route, api.py line 1482):
it authenticates the caller but invokes `semantic_search(request.query,
request.limit)` without passing the identity, so `user_id = None` and
`session_id = None` reach the search. -/
def semantic_search_videos (store : List SearchItem) (query : String)
    (limit : Nat) : List SearchResult :=
  semantic_search store query limit none none

/-! ## Properties of the stable descending sort -/

theorem mem_insertDescBy {α : Type} (f : α → Rat) (x z : α) (l : List α) :
    z ∈ insertDescBy f x l ↔ z = x ∨ z ∈ l := by
  induction l with
  | nil => simp [insertDescBy]
  | cons y ys ih =>
    rw [insertDescBy]
    by_cases h : f y > f x
    · rw [if_pos h]
      simp only [List.mem_cons, ih]
      tauto
    · rw [if_neg h]
      simp only [List.mem_cons]

theorem pairwise_insertDescBy {α : Type} (f : α → Rat) (x : α) (l : List α)
    (h : l.Pairwise (fun a b => f b ≤ f a)) :
    (insertDescBy f x l).Pairwise (fun a b => f b ≤ f a) := by
  induction l with
  | nil => simp [insertDescBy]
  | cons y ys ih =>
    rw [insertDescBy]
    rcases List.pairwise_cons.mp h with ⟨hy, hys⟩
    by_cases hgt : f y > f x
    · rw [if_pos hgt]
      refine List.pairwise_cons.mpr ⟨?_, ih hys⟩
      intro z hz
      rcases (mem_insertDescBy f x z ys).mp hz with rfl | hz
      · exact le_of_lt hgt
      · exact hy z hz
    · rw [if_neg hgt]
      refine List.pairwise_cons.mpr ⟨?_, h⟩
      intro z hz
      rcases List.mem_cons.mp hz with rfl | hz
      · exact not_lt.mp hgt
      · exact le_trans (hy z hz) (not_lt.mp hgt)

theorem pairwise_sortDescBy {α : Type} (f : α → Rat) (l : List α) :
    (sortDescBy f l).Pairwise (fun a b => f b ≤ f a) := by
  induction l with
  | nil => simp [sortDescBy]
  | cons x xs ih => exact pairwise_insertDescBy f x (sortDescBy f xs) ih

theorem filter_insertDescBy {α : Type} (f : α → Rat) (x : α) (l : List α) (s : Rat) :
    (insertDescBy f x l).filter (fun z => decide (f z = s)) =
      (if f x = s then [x] else []) ++ l.filter (fun z => decide (f z = s)) := by
  induction l with
  | nil =>
    by_cases hx : f x = s <;> simp [insertDescBy, hx]
  | cons y ys ih =>
    rw [insertDescBy]
    by_cases hgt : f y > f x
    · rw [if_pos hgt]
      by_cases hy : f y = s
      · have hx : ¬ f x = s := by
          intro hx
          rw [hx, hy] at hgt
          exact lt_irrefl s hgt
        simp [List.filter_cons, hy, hx, ih]
      · simp [List.filter_cons, hy, ih]
    · rw [if_neg hgt]
      by_cases hx : f x = s <;> simp [List.filter_cons, hx]

theorem filter_sortDescBy {α : Type} (f : α → Rat) (l : List α) (s : Rat) :
    (sortDescBy f l).filter (fun z => decide (f z = s)) =
      l.filter (fun z => decide (f z = s)) := by
  induction l with
  | nil => rfl
  | cons x xs ih =>
    rw [sortDescBy, filter_insertDescBy, ih, List.filter_cons]
    by_cases hx : f x = s <;> simp [hx]

theorem mem_sortDescBy {α : Type} (f : α → Rat) (l : List α) (z : α) :
    z ∈ sortDescBy f l ↔ z ∈ l := by
  induction l with
  | nil => simp [sortDescBy]
  | cons x xs ih =>
    rw [sortDescBy, mem_insertDescBy, ih, List.mem_cons]

/-! ## Claim C1: tenant isolation of semantic search -/

/-- A job of owner `bob` whose indexed keywords match the query `bmw`. -/
def c1BobJob : SearchItem :=
  { job_id := "job-b", user_id := some "bob", session_id := none
    s3_key := "videos/bmw.mp4", s3_bucket := "bkt"
    searchable_content := "bmw x5 clip"
    semantic_tags := [], text_content := []
    has_labels := false, has_text := true, has_blackframes := false
    analysis_type := "complete", blackframes_count := 0
    search_updated_at := 100, updated_at := 100 }

/-- Claim C1: a semantic-search call issued with owner A's authenticated
identity must never return a job created by another owner B.  The code
violates this: the `/semantic-search` route authenticates the caller but
calls `semantic_search` without the caller's `user_id`, so with a store
holding only bob's matching job, a search issued by alice returns bob's job.
The third conjunct shows that `semantic_search` itself, had the route passed
`user_id="alice"`, would have filtered the job out. -/
theorem c1_semantic_search_videos_returns_foreign_job :
    (semantic_search_videos [c1BobJob] "bmw" 10).map (fun r => r.job_id) = ["job-b"]
    ∧ c1BobJob.user_id = some "bob"
    ∧ semantic_search [c1BobJob] "bmw" 10 (some "alice") none = [] := by
  refine ⟨by decide, rfl, by decide⟩

/-! ## Claim C8: ranking order of semantic search -/

/-- Two jobs of the same owner with identical match scores; the first one in
the table is the older one (`updated_at`/`search_updated_at` 100 vs 200). -/
def c8OldJob : SearchItem :=
  { job_id := "old", user_id := some "alice", session_id := none
    s3_key := "videos/a.mp4", s3_bucket := "bkt"
    searchable_content := "bmw x5 clip"
    semantic_tags := [], text_content := []
    has_labels := false, has_text := false, has_blackframes := false
    analysis_type := "complete", blackframes_count := 0
    search_updated_at := 100, updated_at := 100 }

def c8NewJob : SearchItem :=
  { c8OldJob with job_id := "new", search_updated_at := 200, updated_at := 200 }

/-- Claim C8 counterexample: two candidates with equal score are NOT ordered
most-recent-first.  `semantic_search` sorts only by score (a stable sort), so
the older job (`updated_at = 100`) stays in front of the newer one
(`updated_at = 200`) although both score 3/2. -/
theorem c8_equal_scores_not_ordered_by_recency :
    (semantic_search [c8OldJob, c8NewJob] "bmw" 10 (some "alice") none).map
        (fun r => (r.job_id, r.timestamp)) = [("old", 100), ("new", 200)]
    ∧ (semantic_search [c8OldJob, c8NewJob] "bmw" 10 (some "alice") none).map
        (fun r => r.score) = [mkRat 3 2, mkRat 3 2]
    ∧ c8OldJob.updated_at = 100 ∧ c8NewJob.updated_at = 200 := by
  refine ⟨by decide, by decide, rfl, rfl⟩

/-- Claim C8 (amended): the result list is sorted by score descending and
truncated to the requested limit; candidates with equal score keep their
store-scan order (the sort is stable) — there is no recency tie-break.
Conjuncts: (1) scores descending, (2) length at most `limit`, (3) every
result is one of the scored candidates, (4) stability: for every score
value, the equal-score candidates appear in their original order. -/
theorem c8_ranking_sorted_truncated_stable (store : List SearchItem)
    (query : String) (limit : Nat) (user_id session_id : Option String) :
    (semantic_search store query limit user_id session_id).Pairwise
        (fun a b => b.score ≤ a.score)
    ∧ (semantic_search store query limit user_id session_id).length ≤ limit
    ∧ (∀ z, z ∈ semantic_search store query limit user_id session_id →
        z ∈ scored_results store query user_id session_id)
    ∧ (∀ s, (sortDescBy (fun r => r.score)
          (scored_results store query user_id session_id)).filter
            (fun z => decide (z.score = s)) =
        (scored_results store query user_id session_id).filter
            (fun z => decide (z.score = s))) := by
  refine ⟨?_, ?_, ?_, ?_⟩
  · exact List.Pairwise.sublist (List.take_sublist _ _)
      (pairwise_sortDescBy (fun r : SearchResult => r.score) _)
  · rw [semantic_search]
    exact List.length_take_le _ _
  · intro z hz
    have hz' : z ∈ sortDescBy (fun r => r.score)
        (scored_results store query user_id session_id) :=
      (List.take_sublist _ _).mem hz
    exact (mem_sortDescBy _ _ z).mp hz'
  · intro s
    exact filter_sortDescBy _ _ s

/-! ## Data model of the job table (lifecycle view)

The DynamoDB items written by `save_job_entry`, `start_worker_container` and
the worker; absent attributes are `none`. -/

/-- The request model `VideoJob` (bucket, key, tool), also the shape of the
`video` attribute stored by `save_job_entry` in the analyze flow. -/
structure VideoRef where
  bucket : String
  key : String
  tool : String
  deriving Repr, DecidableEq

/-- The `video_info` dictionary rebuilt by the worker at commit time. -/
structure WorkerVideoInfo where
  bucket : Option String
  key : Option String
  s3_url : Option String
  filename : String
  tool : String
  deriving Repr, DecidableEq

/-- The `summary` sub-dictionary the worker writes at commit time. -/
structure JobSummary where
  blackframes_count : Nat
  text_detections_count : Nat
  analysis_type : String
  deriving Repr, DecidableEq

structure JobItem where
  job_id : String
  status : Option String := none
  /-- legacy field consulted by status fallbacks -/
  job_status : Option String := none
  result : Option String := none
  created_at : Option Nat := none
  updated_at : Option Nat := none
  user_id : Option String := none
  user_email : Option String := none
  session_id : Option String := none
  video : Option VideoRef := none
  s3_bucket : Option String := none
  s3_key : Option String := none
  file_url : Option String := none
  s3_session_key : Option String := none
  video_info : Option WorkerVideoInfo := none
  summary : Option JobSummary := none
  has_blackframes : Option Bool := none
  has_text_detection : Option Bool := none
  sqs_message_id : Option String := none
  enqueued_at : Option Nat := none
  enqueue_attempts : Option Nat := none
  enqueue_last_error : Option String := none
  enqueue_error_at : Option Nat := none
  deriving Repr, DecidableEq

/-- The job table, scanned in list order. -/
abbrev JobStore := List JobItem

/-- DynamoDB `get_item` by key. -/
def getItem (store : JobStore) (jid : String) : Option JobItem :=
  List.find? (fun it => it.job_id == jid) store

/-- DynamoDB `put_item`: replace the item with the same key, else append. -/
def putItem : JobStore → JobItem → JobStore
  | [], item => [item]
  | it :: rest, item =>
    if it.job_id == item.job_id then item :: rest else it :: putItem rest item

/-- DynamoDB `update_item` on an existing item (every `update_item` in the
embedded flows touches a job that was written beforehand). -/
def updateItem (store : JobStore) (jid : String) (f : JobItem → JobItem) : JobStore :=
  store.map (fun it => if it.job_id == jid then f it else it)

theorem getItem_putItem (store : JobStore) (item : JobItem) :
    getItem (putItem store item) item.job_id = some item := by
  induction store with
  | nil => simp [getItem, putItem, List.find?]
  | cons it rest ih =>
    rw [putItem]
    by_cases h : it.job_id == item.job_id
    · rw [if_pos h]
      simp [getItem, List.find?]
    · rw [if_neg h]
      have hne : (it.job_id == item.job_id) = false := by
        simpa using h
      simp only [getItem, List.find?, hne]
      exact ih

theorem getItem_updateItem (store : JobStore) (jid : String) (f : JobItem → JobItem)
    (h : ∀ it : JobItem, (f it).job_id = it.job_id) :
    getItem (updateItem store jid f) jid = (getItem store jid).map f := by
  induction store with
  | nil => rfl
  | cons it rest ih =>
    rw [updateItem, List.map_cons]
    by_cases hid : it.job_id == jid
    · rw [if_pos hid]
      have : ((f it).job_id == jid) = true := by
        rw [h it]
        exact hid
      simp only [getItem, List.find?, this, hid]
      rfl
    · rw [if_neg hid]
      have hne : (it.job_id == jid) = false := by simpa using hid
      simp only [getItem, List.find?, hne]
      exact ih

/-! ## Python `'/'`-split helpers used by the lifecycle code -/

/-- `s.split('/')` over char lists (structural). -/
def splitSlashAux : List Char → List Char → List (List Char)
  | [], acc => [acc.reverse]
  | c :: cs, acc =>
    if c = '/' then acc.reverse :: splitSlashAux cs [] else splitSlashAux cs (c :: acc)

/-- Python `s.split('/')` (always returns at least one part). -/
def pySplitSlash (s : String) : List String := (splitSlashAux s.data []).map String.mk

/-- Python `s.split('/')[-1]` (the split list is never empty). -/
def lastSlashPart (s : String) : String := (pySplitSlash s).getLastD ""

/-! ## `api.py`: save_job_entry, start_worker_container, analyze_videos -/

/-- `save_job_entry` (api.py line 348): build the fresh item and `put_item`
it.  `created_at` falls back to the current time when falsy (absent or 0);
`user_id`/`user_email`/`session_id` are stored only when truthy. -/
def save_job_entry (store : JobStore) (job_id status : String)
    (result : Option String) (video : Option VideoRef) (created_at : Option Nat)
    (user_id user_email session_id : Option String) (now : Nat) : JobStore :=
  let created := match created_at with
    | some c => if c ≠ 0 then c else now
    | none => now
  let base : JobItem :=
    { job_id := job_id
      status := some status
      created_at := some created
      updated_at := some now
      user_id := if optTruthy user_id then user_id else none
      user_email := if optTruthy user_email then user_email else none
      session_id := if optTruthy session_id then session_id else none
      result := result }
  let item := match video with
    | none => base
    | some v =>
      let file_name := lastSlashPart v.key
      let session_key := "users/" ++ (user_id.getD "") ++ "/sessions/"
        ++ (session_id.getD "") ++ "/" ++ file_name
      { base with
        video := some v
        s3_bucket := some v.bucket
        s3_key := some v.key
        file_url := some ("s3://" ++ v.bucket ++ "/" ++ v.key)
        s3_session_key :=
          if optTruthy user_id && optTruthy session_id && !file_name.isEmpty then
            some session_key
          else none }
  putItem store item

/-- The SQS message body built by `start_worker_container`. -/
structure SqsMessage where
  job_id : String
  tool : String
  file_url : String
  bucket : String
  s3_key : String
  deriving Repr, DecidableEq

/-- Result of one `start_worker_container` call: the updated store, the body
it built, the message id obtained (empty when never assigned), and the
exception it re-raises after exhausting its attempts, if any. -/
structure DispatchOutcome where
  store : JobStore
  message : SqsMessage
  message_id : String
  err : Option String
  deriving Repr, DecidableEq

/-- The `for attempt in range(1, 3)` loop: walk the outcomes of successive
`sqs.send_message` calls (at most two are made), breaking at the first
success; returns the message id (`""` when never assigned) and the last
exception seen before the break. -/
def sendLoop (prev : Option String) : List (Except String String) → String × Option String
  | [] => ("", prev)
  | .ok m :: _ => (m, prev)
  | .error e :: rest => sendLoop (some e) rest

/-- `start_worker_container` (api.py line 1726): build the message, try to
enqueue it with up to two attempts; on success record
`sqs_message_id`/`enqueued_at`/`enqueue_attempts` on the job; on exhaustion
record `enqueue_last_error`/`enqueue_error_at`/`enqueue_attempts` and
re-raise the last exception.  `attempts` is the environment: the outcome the
queue would give each `send_message` call. -/
def start_worker_container (attempts : List (Except String String))
    (store : JobStore) (bucket key job_id tool : String) (now : Nat) :
    DispatchOutcome :=
  let file_url := "https://" ++ bucket ++ ".s3.eu-central-1.amazonaws.com/" ++ key
  let body : SqsMessage :=
    { job_id := job_id, tool := tool, file_url := file_url
      bucket := bucket, s3_key := key }
  let (message_id, last_exc) := sendLoop none (attempts.take 2)
  if message_id.isEmpty then
    let errText := match last_exc with
      | some e => e
      | none => "None"
    let store' := updateItem store job_id fun it =>
      { it with
        enqueue_last_error := some errText
        enqueue_error_at := some now
        enqueue_attempts := some (it.enqueue_attempts.getD 0 + 1) }
    let raised := match last_exc with
      | some e => e
      | none => "Failed to enqueue SQS message"
    { store := store', message := body, message_id := message_id, err := some raised }
  else
    let store' := updateItem store job_id fun it =>
      { it with
        sqs_message_id := some message_id
        enqueued_at := some now
        enqueue_attempts := some (it.enqueue_attempts.getD 0 + 1) }
    { store := store', message := body, message_id := message_id, err := none }

/-- `analyze_videos` (api.py line 1809): for each requested video, generate a
job id, persist the job with status `queued`, then enqueue synchronously via
`start_worker_container`; an enqueue exception propagates out of the handler
(an error response) with the loop aborted.  `ids i` is the uuid generated for
the i-th video and `attemptsFor i` the queue behaviour for its dispatch. -/
def analyzeLoop (ids : Nat → String) (attemptsFor : Nat → List (Except String String))
    (user_id : Option String) (user_email : String) (now : Nat) :
    List VideoRef → Nat → Option String → JobStore →
    List (String × VideoRef) → JobStore × Except String (List (String × VideoRef))
  | [], _, _, store, acc => (store, .ok acc.reverse)
  | v :: rest, i, session_id, store, acc =>
    let job_id := ids i
    let session_id' :=
      if !optTruthy session_id && i == 0 then some job_id else session_id
    let store1 := save_job_entry store job_id "queued" none (some v) none
      user_id (some user_email) session_id' now
    let d := start_worker_container (attemptsFor i) store1 v.bucket v.key job_id v.tool now
    match d.err with
    | some e => (d.store, .error e)
    | none => analyzeLoop ids attemptsFor user_id user_email now rest (i + 1)
        session_id' d.store ((job_id, v) :: acc)

def analyze_videos (ids : Nat → String)
    (attemptsFor : Nat → List (Except String String)) (videos : List VideoRef)
    (session_id : Option String) (user_id : Option String) (user_email : String)
    (store : JobStore) (now : Nat) :
    JobStore × Except String (List (String × VideoRef)) :=
  analyzeLoop ids attemptsFor user_id user_email now videos 0 session_id store []

/-! ## `api.py`: job_status -/

/-- One entry of the `/job-status` response. -/
structure StatusEntry where
  job_id : String
  status : String
  result : String
  deriving Repr, DecidableEq

/-- `job_status` (api.py line 1868): per-id lookup; a missing job yields
`not_found`; a job whose stored `user_id` is truthy and differs from the
caller also yields `not_found` with an empty result; otherwise the stored
status (falling back to the legacy `job_status` field, then `"unknown"`) and
the stringified result. -/
def job_status (store : JobStore) (caller : Option String)
    (job_ids : List String) : List StatusEntry :=
  job_ids.map fun jid =>
    match getItem store jid with
    | none => { job_id := jid, status := "not_found", result := "" }
    | some item =>
      if optTruthy item.user_id && item.user_id ≠ caller then
        { job_id := jid, status := "not_found", result := "" }
      else
        let status_value :=
          if optTruthy item.status then item.status.getD ""
          else item.job_status.getD "unknown"
        { job_id := jid, status := status_value, result := item.result.getD "" }

/-! ## `api.py`: requeue_single_job -/

/-- `requeue_single_job` (api.py line 2005): owner-gated requeue of one job.
Re-dispatches a message built from the stored `s3_bucket`/`s3_key` and the
tool of the stored `video` (defaulting to `analyze_video_complete`); note
that it never touches the `status` field itself — only
`start_worker_container`'s diagnostics update runs on success. -/
def requeue_single_job (attempts : List (Except String String))
    (store : JobStore) (caller : Option String) (job_id : String) (now : Nat) :
    JobStore × Except String String :=
  match getItem store job_id with
  | none => (store, .error "404 Job not found")
  | some item =>
    if optTruthy item.user_id && item.user_id ≠ caller then
      (store, .error "403 Not your job")
    else
      let toolRaw := match item.video with
        | some v => v.tool
        | none => ""
      let tool := if toolRaw.isEmpty then "analyze_video_complete" else toolRaw
      if !optTruthy item.s3_bucket || !optTruthy item.s3_key then
        (store, .error "400 Job missing S3 info")
      else
        let d := start_worker_container attempts store (item.s3_bucket.getD "")
          (item.s3_key.getD "") job_id tool now
        match d.err with
        | some e => (d.store, .error ("500 Requeue failed: " ++ e))
        | none => (d.store, .ok "requeued")

/-! ## `worker.py`: the done-commit of `_process_messages` (lines 477-590) -/

/-- The fields of the parsed analysis result that the commit step reads: the
serialized payload, the (defaulted) summary counters and analysis type. -/
structure AnalysisData where
  raw : String
  blackframes_count : Nat
  text_detections_count : Nat
  analysis_type : String
  deriving Repr, DecidableEq

/-- The item the worker builds when a job finished successfully
(worker.py lines 515-544): a COMPLETE rebuild from the resolve-time snapshot
`job_item`.  It copies forward created_at, the S3 fields, the original
`video` value and (when truthy) the user isolation fields, sets
status/result/updated_at/summary, and contains no dispatch-diagnostic
attributes at all. -/
def worker_done_item (job_item : JobItem) (tool_name : String)
    (a : AnalysisData) (now : Nat) : JobItem :=
  let filename := match job_item.s3_key with
    | some k => if k.isEmpty then "Unknown" else lastSlashPart k
    | none => "Unknown"
  { job_id := job_item.job_id
    status := some "done"
    result := some a.raw
    updated_at := some now
    created_at := some (job_item.created_at.getD now)
    s3_bucket := job_item.s3_bucket
    s3_key := job_item.s3_key
    file_url := job_item.file_url
    video := job_item.video
    video_info := some
      { bucket := job_item.s3_bucket
        key := job_item.s3_key
        s3_url := job_item.file_url
        filename := filename
        tool := tool_name }
    user_id := if optTruthy job_item.user_id then job_item.user_id else none
    user_email := if optTruthy job_item.user_email then job_item.user_email else none
    session_id := if optTruthy job_item.session_id then job_item.session_id else none
    summary := some
      { blackframes_count := a.blackframes_count
        text_detections_count := a.text_detections_count
        analysis_type := a.analysis_type }
    has_blackframes := some (a.blackframes_count > 0)
    has_text_detection := some (a.text_detections_count > 0) }

/-- The commit itself: `t.put_item(Item=item)` — a full overwrite of the
stored job by the rebuilt item. -/
def worker_commit_done (store : JobStore) (job_item : JobItem)
    (tool_name : String) (a : AnalysisData) (now : Nat) : JobStore :=
  putItem store (worker_done_item job_item tool_name a now)

/-- Remove a job from the table (used to compare answers against a store in
which the job does not exist). -/
def removeItem (store : JobStore) (jid : String) : JobStore :=
  store.filter (fun it => !(it.job_id == jid))

theorem getItem_removeItem (store : JobStore) (jid : String) :
    getItem (removeItem store jid) jid = none := by
  induction store with
  | nil => rfl
  | cons it rest ih =>
    rw [removeItem, List.filter_cons]
    by_cases h : it.job_id == jid
    · simp only [h, Bool.not_true, if_false]
      exact ih
    · have hne : (it.job_id == jid) = false := by simpa using h
      simp only [hne, Bool.not_false, if_true, getItem, List.find?, hne]
      exact ih

theorem getItem_removeItem_ne (store : JobStore) (jid other : String)
    (h : other ≠ jid) : getItem (removeItem store jid) other = getItem store other := by
  induction store with
  | nil => rfl
  | cons it rest ih =>
    by_cases hj : it.job_id == jid
    · have hid : it.job_id = jid := by simpa using hj
      have hno : (it.job_id == other) = false := by
        refine beq_eq_false_iff_ne.mpr ?_
        rw [hid]
        exact fun hc => h hc.symm
      simp only [removeItem, List.filter_cons, hj, Bool.not_true] at ih ⊢
      rw [if_neg (by simp)]
      rw [ih]
      simp only [getItem, List.find?, hno]
    · have hne : (it.job_id == jid) = false := by simpa using hj
      simp only [removeItem, List.filter_cons, hne, Bool.not_false, if_true] at ih ⊢
      by_cases ho : it.job_id == other
      · simp only [getItem, List.find?, ho]
      · have hno : (it.job_id == other) = false := by simpa using ho
        simp only [getItem, List.find?, hno]
        exact ih

/-! ## Claim C2: create-job behaviour when enqueue retries are exhausted -/

/-- Claim C2 counterexample: with a queue that fails both enqueue attempts,
the create call does NOT return job ids — `start_worker_container` re-raises
the last exception and `analyze_videos` lets it propagate (an error
response), contradicting the claim that a job_id is returned with no error
response whenever the store write succeeded. -/
theorem c2_create_call_errors_when_enqueue_exhausted :
    (analyze_videos (fun _ => "jid-1")
        (fun _ => [.error "boom1", .error "boom2"])
        [{ bucket := "bkt", key := "v/clip.mp4", tool := "detect_blackframes" }]
        none (some "alice") "alice@example.com" [] 1000).2
      = .error "boom2" := by
  rfl

/-- The item freshly written by `save_job_entry` for `jid`: it exists, its
lifecycle fields are as requested, and it carries no dispatch diagnostics. -/
theorem getItem_save_job_entry (store : JobStore) (jid status : String)
    (result : Option String) (video : Option VideoRef) (created_at : Option Nat)
    (uid email sid : Option String) (now : Nat) :
    ∃ it : JobItem,
      getItem (save_job_entry store jid status result video created_at
          uid email sid now) jid = some it
      ∧ it.job_id = jid
      ∧ it.status = some status
      ∧ it.video = video
      ∧ it.user_id = (if optTruthy uid then uid else none)
      ∧ it.session_id = (if optTruthy sid then sid else none)
      ∧ it.updated_at = some now
      ∧ it.sqs_message_id = none
      ∧ it.enqueued_at = none
      ∧ it.enqueue_attempts = none
      ∧ it.enqueue_last_error = none
      ∧ it.enqueue_error_at = none := by
  cases video with
  | none =>
    exact ⟨_, getItem_putItem store _, rfl, rfl, rfl, rfl, rfl, rfl, rfl, rfl,
      rfl, rfl, rfl⟩
  | some v =>
    exact ⟨_, getItem_putItem store _, rfl, rfl, rfl, rfl, rfl, rfl, rfl, rfl,
      rfl, rfl, rfl⟩

/-- Claim C2 (amended): when every bounded enqueue attempt fails, the job
written by the store write stays `queued` with the last enqueue error and an
attempt count recorded in its dispatch diagnostics — but the create call
re-raises the last enqueue error (an error response) instead of returning
the job_id.  Job ids are only returned when dispatch succeeds. -/
theorem c2_enqueue_exhaustion_leaves_job_queued_but_raises
    (v : VideoRef) (jid e1 e2 : String) (store : JobStore) (now : Nat)
    (uid : Option String) (email : String) (sid : Option String) :
    (analyze_videos (fun _ => jid) (fun _ => [.error e1, .error e2])
        [v] sid uid email store now).2 = .error e2
    ∧ ∃ it : JobItem,
        getItem (analyze_videos (fun _ => jid) (fun _ => [.error e1, .error e2])
            [v] sid uid email store now).1 jid = some it
        ∧ it.status = some "queued"
        ∧ it.enqueue_last_error = some e2
        ∧ it.enqueue_error_at = some now
        ∧ it.enqueue_attempts = some 1
        ∧ it.video = some v
        ∧ it.sqs_message_id = none := by
  have hrun : analyze_videos (fun _ => jid) (fun _ => [.error e1, .error e2])
      [v] sid uid email store now
      = (updateItem (save_job_entry store jid "queued" none (some v) none uid
            (some email) (if !optTruthy sid && (0 == 0) then some jid else sid) now)
          jid
          (fun it => { it with
            enqueue_last_error := some e2
            enqueue_error_at := some now
            enqueue_attempts := some (it.enqueue_attempts.getD 0 + 1) }),
        .error e2) := rfl
  obtain ⟨it0, hget, hjid, hstatus, hvideo, huser, hsession, hupd,
    hsqs, henq, hatt, hlast, herr⟩ :=
    getItem_save_job_entry store jid "queued" none (some v) none uid
      (some email) (if !optTruthy sid && (0 == 0) then some jid else sid) now
  rw [hrun]
  constructor
  · rfl
  · refine ⟨{ it0 with
        enqueue_last_error := some e2
        enqueue_error_at := some now
        enqueue_attempts := some (it0.enqueue_attempts.getD 0 + 1) },
      ?_, ?_, ?_, ?_, ?_, ?_, ?_⟩
    · have hres := getItem_updateItem
        (save_job_entry store jid "queued" none (some v) none uid (some email)
          (if !optTruthy sid && (0 == 0) then some jid else sid) now)
        jid
        (fun it => { it with
          enqueue_last_error := some e2
          enqueue_error_at := some now
          enqueue_attempts := some (it.enqueue_attempts.getD 0 + 1) })
        (fun it => rfl)
      rw [hres, hget]
      rfl
    · simpa using hstatus
    · rfl
    · rfl
    · simp [hatt]
    · simpa using hvideo
    · simpa using hsqs

/-! ## Claim C3: the worker's done-commit versus partial updates -/

/-- The job as the worker resolved it (step 2), before dispatch diagnostics
were written. -/
def c3Snapshot : JobItem :=
  { job_id := "j1", status := some "running", created_at := some 10
    updated_at := some 11, user_id := some "alice"
    user_email := some "alice@example.com", session_id := some "s1"
    video := some { bucket := "bkt", key := "v/k.mp4", tool := "detect_blackframes" }
    s3_bucket := some "bkt", s3_key := some "v/k.mp4"
    file_url := some "s3://bkt/v/k.mp4" }

/-- The store at commit time: the Lifecycle Manager wrote the dispatch
diagnostics after the worker's resolve step. -/
def c3StoreAtCommit : JobStore :=
  [{ c3Snapshot with
      sqs_message_id := some "m-1", enqueued_at := some 12,
      enqueue_attempts := some 1 }]

/-- Claim C3 counterexample: the worker's done-commit is a `put_item` full
overwrite built from the resolve-time snapshot, so the message id,
enqueued-at and attempt count present on the stored job at commit time are
gone after the commit — the claim that they are still present is false. -/
theorem c3_done_commit_drops_dispatch_diagnostics :
    (getItem c3StoreAtCommit "j1").map
        (fun it => (it.sqs_message_id, it.enqueued_at, it.enqueue_attempts))
      = some (some "m-1", some 12, some 1)
    ∧ (getItem (worker_commit_done c3StoreAtCommit c3Snapshot
          "detect_blackframes"
          { raw := "res", blackframes_count := 0, text_detections_count := 0,
            analysis_type := "basic" } 20) "j1").map
        (fun it => (it.sqs_message_id, it.enqueued_at, it.enqueue_attempts, it.status))
      = some (none, none, none, some "done") := by
  exact ⟨rfl, rfl⟩

/-- Claim C3 (amended): the worker's running/error updates are partial, but
the done-commit is a full `put_item` of a record rebuilt from the
resolve-time snapshot: it carries forward created_at, the S3/video fields
and the truthy owner/session fields from that snapshot, sets
status/result/updated_at and the summary, and contains NO dispatch
diagnostic fields, so diagnostics written between resolve and commit are
absent from the stored job after the commit. -/
theorem c3_done_commit_full_rebuild_from_snapshot (job_item : JobItem)
    (tool : String) (a : AnalysisData) (now : Nat) (store : JobStore) :
    (worker_done_item job_item tool a now).status = some "done"
    ∧ (worker_done_item job_item tool a now).result = some a.raw
    ∧ (worker_done_item job_item tool a now).updated_at = some now
    ∧ (worker_done_item job_item tool a now).created_at
        = some (job_item.created_at.getD now)
    ∧ (worker_done_item job_item tool a now).user_id
        = (if optTruthy job_item.user_id then job_item.user_id else none)
    ∧ (worker_done_item job_item tool a now).user_email
        = (if optTruthy job_item.user_email then job_item.user_email else none)
    ∧ (worker_done_item job_item tool a now).session_id
        = (if optTruthy job_item.session_id then job_item.session_id else none)
    ∧ (worker_done_item job_item tool a now).video = job_item.video
    ∧ (worker_done_item job_item tool a now).s3_bucket = job_item.s3_bucket
    ∧ (worker_done_item job_item tool a now).s3_key = job_item.s3_key
    ∧ (worker_done_item job_item tool a now).file_url = job_item.file_url
    ∧ (worker_done_item job_item tool a now).sqs_message_id = none
    ∧ (worker_done_item job_item tool a now).enqueued_at = none
    ∧ (worker_done_item job_item tool a now).enqueue_attempts = none
    ∧ (worker_done_item job_item tool a now).enqueue_last_error = none
    ∧ (worker_done_item job_item tool a now).enqueue_error_at = none
    ∧ getItem (worker_commit_done store job_item tool a now) job_item.job_id
        = some (worker_done_item job_item tool a now) := by
  refine ⟨rfl, rfl, rfl, rfl, rfl, rfl, rfl, rfl, rfl, rfl, rfl, rfl, rfl,
    rfl, rfl, rfl, ?_⟩
  exact getItem_putItem store _

/-! ## Claim C4: cross-tenant status queries report not_found -/

/-- Claim C4: in a status query, an id whose stored job has a (truthy) owner
different from the caller yields `not_found` with an empty result — and the
whole response is identical to the response over a store in which that job
does not exist at all, for every query list. -/
theorem c4_foreign_job_status_not_found (store : JobStore)
    (caller : Option String) (jid : String) (item : JobItem) (owner : String)
    (hfind : getItem store jid = some item) (howner : item.user_id = some owner)
    (hne : owner ≠ "") (hdiff : some owner ≠ caller) :
    job_status store caller [jid]
      = [{ job_id := jid, status := "not_found", result := "" }]
    ∧ ∀ ids, job_status store caller ids
        = job_status (removeItem store jid) caller ids := by
  have hTruthy : optTruthy item.user_id = true := by
    rw [howner]
    have hb : (owner == "") = false := beq_eq_false_iff_ne.mpr hne
    simp [optTruthy, hb]
  have hDiff : item.user_id ≠ caller := by
    rw [howner]
    exact hdiff
  have hentry : ∀ id : String,
      (match getItem store id with
        | none => ({ job_id := id, status := "not_found", result := "" } : StatusEntry)
        | some it =>
          if optTruthy it.user_id && it.user_id ≠ caller then
            { job_id := id, status := "not_found", result := "" }
          else
            { job_id := id
              status := if optTruthy it.status then it.status.getD ""
                else it.job_status.getD "unknown"
              result := it.result.getD "" })
      = (match getItem (removeItem store jid) id with
        | none => ({ job_id := id, status := "not_found", result := "" } : StatusEntry)
        | some it =>
          if optTruthy it.user_id && it.user_id ≠ caller then
            { job_id := id, status := "not_found", result := "" }
          else
            { job_id := id
              status := if optTruthy it.status then it.status.getD ""
                else it.job_status.getD "unknown"
              result := it.result.getD "" }) := by
    intro id
    by_cases hid : id = jid
    · subst hid
      rw [hfind, getItem_removeItem]
      simp [hTruthy, hDiff]
    · rw [getItem_removeItem_ne store jid id hid]
  constructor
  · simp only [job_status, List.map, hfind]
    simp [hTruthy, hDiff]
  · intro ids
    simp only [job_status]
    exact List.map_congr_left (fun id _ => hentry id)

/-- A store holding one job owned by bob, queried by alice. -/
def c4Store : JobStore :=
  [{ job_id := "j-b", status := some "done", created_at := some 5
     updated_at := some 9, user_id := some "bob", result := some "payload" }]

/-- Witness for C4 at a concrete input: alice queries bob's job id and gets
`not_found` with an empty result, the same as if the job did not exist. -/
theorem c4_foreign_job_status_not_found_witness :
    job_status c4Store (some "alice") ["j-b"]
      = [{ job_id := "j-b", status := "not_found", result := "" }]
    ∧ job_status c4Store (some "alice") ["j-b"]
      = job_status (removeItem c4Store "j-b") (some "alice") ["j-b"] :=
  ⟨(c4_foreign_job_status_not_found c4Store (some "alice") "j-b"
      (c4Store.get ⟨0, by decide⟩) "bob" rfl rfl (by decide) (by decide)).1,
   (c4_foreign_job_status_not_found c4Store (some "alice") "j-b"
      (c4Store.get ⟨0, by decide⟩) "bob" rfl rfl (by decide) (by decide)).2 ["j-b"]⟩

/-! ## Claim C5: owner-gated requeue of a single job -/

def c5DoneJob : JobItem :=
  { job_id := "j1", status := some "done", created_at := some 10
    updated_at := some 15, user_id := some "alice", result := some "res"
    video := some { bucket := "bkt", key := "v/k.mp4", tool := "detect_blackframes" }
    s3_bucket := some "bkt", s3_key := some "v/k.mp4"
    file_url := some "s3://bkt/v/k.mp4" }

def c5Store : JobStore := [c5DoneJob]

/-- Claim C5 counterexample: a successful owner-gated requeue of a `done` job
leaves the stored status `done` — `requeue_single_job` never resets the
status to `queued`; it only records fresh dispatch diagnostics. -/
theorem c5_requeue_leaves_done_status :
    (requeue_single_job [.ok "mid-1"] c5Store (some "alice") "j1" 50).2
      = .ok "requeued"
    ∧ (getItem (requeue_single_job [.ok "mid-1"] c5Store (some "alice") "j1" 50).1
          "j1").map (fun it => (it.status, it.sqs_message_id))
      = some (some "done", some "mid-1") := by
  exact ⟨rfl, rfl⟩

/-- Claim C5 (amended): the owner-gated requeue re-dispatches a message built
from the job's own stored video reference and, on success, records the new
message id, enqueue time and attempt count on the job — but it does not
touch the job's status: the stored job after a successful requeue is the old
item with only the dispatch-diagnostic fields changed (so a done or error
job keeps its old status). -/
theorem c5_requeue_redispatches_without_status_reset
    (store : JobStore) (caller : Option String) (jid : String) (item : JobItem)
    (mid : String) (rest : List (Except String String)) (now : Nat)
    (hfind : getItem store jid = some item)
    (hgate : (optTruthy item.user_id && item.user_id ≠ caller) = false)
    (hbucket : optTruthy item.s3_bucket = true)
    (hkey : optTruthy item.s3_key = true)
    (hmid : mid.isEmpty = false) :
    (requeue_single_job (.ok mid :: rest) store caller jid now).2 = .ok "requeued"
    ∧ getItem (requeue_single_job (.ok mid :: rest) store caller jid now).1 jid
      = some { item with
          sqs_message_id := some mid
          enqueued_at := some now
          enqueue_attempts := some (item.enqueue_attempts.getD 0 + 1) } := by
  have hbk : (!optTruthy item.s3_bucket || !optTruthy item.s3_key) = false := by
    rw [hbucket, hkey]
    rfl
  rw [requeue_single_job.eq_def, hfind]
  simp only [hgate, Bool.false_eq_true, if_false, hbk]
  rw [start_worker_container.eq_def]
  have hsend : sendLoop none ((Except.ok mid :: rest).take 2) = (mid, none) := rfl
  simp only [hsend, hmid, Bool.false_eq_true, if_false]
  constructor
  · trivial
  · have hres := getItem_updateItem store jid
      (fun it => { it with
        sqs_message_id := some mid
        enqueued_at := some now
        enqueue_attempts := some (it.enqueue_attempts.getD 0 + 1) })
      (fun it => rfl)
    rw [hres, hfind]
    rfl

def c5WitnessStore : JobStore :=
  [{ job_id := "j9", status := some "error", created_at := some 1
     updated_at := some 2, user_id := some "alice"
     video := some { bucket := "b2", key := "d/e.mp4", tool := "rekognition_detect_text" }
     s3_bucket := some "b2", s3_key := some "d/e.mp4" }]

/-- Witness for the amended C5 at a concrete input. -/
theorem c5_requeue_redispatches_without_status_reset_witness :
    (requeue_single_job [.ok "m-7"] c5WitnessStore (some "alice") "j9" 99).2
      = .ok "requeued"
    ∧ getItem (requeue_single_job [.ok "m-7"] c5WitnessStore (some "alice") "j9" 99).1
        "j9"
      = some { (c5WitnessStore.get ⟨0, by decide⟩) with
          sqs_message_id := some "m-7"
          enqueued_at := some 99
          enqueue_attempts := some 1 } :=
  c5_requeue_redispatches_without_status_reset c5WitnessStore (some "alice")
    "j9" (c5WitnessStore.get ⟨0, by decide⟩) "m-7" [] 99 rfl (by decide)
    (by decide) (by decide) (by decide)

/-! ## `worker/agent.py`: detect_blackframes (lines 235-295)

A decoded frame is represented by its mean grey-level luminance (the
`cv2.cvtColor` + `np.mean` pipeline is the external decoder); the video is
the list of those per-frame means, in decode order. -/

/-- One record of the `detected_blackframes` list:
`{"frame": n, "brightness": b, "timestamp": n / fps}`. -/
structure BlackFrame where
  frame : Nat
  brightness : Rat
  timestamp : Rat
  deriving Repr, DecidableEq

/-- The structured JSON result of `detect_blackframes`. -/
structure BlackframesResult where
  count : Nat
  total_frames : Nat
  frames : List BlackFrame
  percentage : Rat
  deriving Repr, DecidableEq

/-- The `while True: cap.read()` loop: every frame is examined, and a frame
is flagged exactly when its mean brightness is below 20. -/
def bfLoop (fps : Rat) : List Rat → Nat → List BlackFrame
  | [], _ => []
  | b :: rest, n =>
    (if b < 20 then [{ frame := n, brightness := b, timestamp := qDiv (mkRat n 1) fps }]
     else [])
    ++ bfLoop fps rest (n + 1)

/-- `detect_blackframes`: flag every frame with mean luminance below 20 and
report count / total / flagged list / percentage. -/
def detect_blackframes (lums : List Rat) (fps : Rat) : BlackframesResult :=
  let detected := bfLoop fps lums 0
  { count := detected.length
    total_frames := lums.length
    frames := detected
    percentage :=
      if lums.length > 0 then
        qMul (qDiv (mkRat detected.length 1) (mkRat lums.length 1)) 100
      else 0 }

theorem bfLoop_spec (fps : Rat) (l : List Rat) (n : Nat) :
    bfLoop fps l n
      = ((List.enumFrom n l).filter (fun p => decide (p.2 < 20))).map
          (fun p => { frame := p.1, brightness := p.2
                      timestamp := qDiv (mkRat p.1 1) fps }) := by
  induction l generalizing n with
  | nil => rfl
  | cons b rest ih =>
    rw [bfLoop, List.enumFrom, List.filter_cons]
    by_cases hb : b < 20
    · simp only [hb, decide_True, if_true, List.map_cons, ih]
      rfl
    · simp only [hb, decide_False, if_false, ih]
      rfl

def c6ExampleVideo : List Rat :=
  List.replicate 10 100 ++ List.replicate 6 5 ++ List.replicate 4 100

/-- Claim C6: blackframe detection examines every frame, flags exactly the
frames with mean luminance below the fixed threshold 20, emits one
frame/timestamp/brightness record per flagged frame, and reports
count = number of flagged frames and percentage = count/total*100 (0 when
there are no frames); on a 20-frame video whose frames 10-15 have mean
luminance 5 and all others 100, it reports count 6, frames [10..15] and
percentage 30. -/
theorem c6_blackframes_flags_exactly_below_threshold (lums : List Rat) (fps : Rat) :
    (detect_blackframes lums fps).frames
      = ((List.enumFrom 0 lums).filter (fun p => decide (p.2 < 20))).map
          (fun p => { frame := p.1, brightness := p.2
                      timestamp := qDiv (mkRat p.1 1) fps })
    ∧ (detect_blackframes lums fps).count = (detect_blackframes lums fps).frames.length
    ∧ (detect_blackframes lums fps).total_frames = lums.length
    ∧ (detect_blackframes lums fps).percentage
      = (if 0 < lums.length then
          ((detect_blackframes lums fps).count : Rat) / (lums.length : Rat) * 100
        else 0)
    ∧ (detect_blackframes c6ExampleVideo 25).count = 6
    ∧ (detect_blackframes c6ExampleVideo 25).frames.map (fun f => f.frame)
      = [10, 11, 12, 13, 14, 15]
    ∧ (detect_blackframes c6ExampleVideo 25).percentage = 30 := by
  refine ⟨bfLoop_spec fps lums 0, rfl, rfl, ?_, by decide, by decide, by decide⟩
  show (if lums.length > 0 then
      qMul (qDiv (mkRat (bfLoop fps lums 0).length 1) (mkRat lums.length 1)) 100
    else 0) = _
  by_cases h : 0 < lums.length
  · rw [if_pos h, if_pos h, qMul_eq, qDiv_eq]
    norm_num [Rat.mkRat_eq_div]
    rfl
  · rw [if_neg h, if_neg h]

/-! ## `worker/agent.py`: rekognition_detect_text (lines 146-232)

The external Rekognition `detect_text` API is an environment function from
the sampled frame index to the detections it reports. -/

/-- One element of `response["TextDetections"]`. -/
structure BoundingBox where
  left : Rat
  top : Rat
  width : Rat
  height : Rat
  deriving Repr, DecidableEq

structure RTextDetection where
  dtype : String
  text : String
  confidence : Rat
  bbox : BoundingBox
  deriving Repr, DecidableEq

/-- One record appended to `text_detections`. -/
structure TextHit where
  text : String
  confidence : Rat
  timestamp : Rat
  frame : Nat
  bbox : BoundingBox
  deriving Repr, DecidableEq

structure TextDetectResult where
  count : Nat
  texts : List TextHit
  total_frames : Nat
  fps : Rat
  deriving Repr, DecidableEq

/-- Python `int(q)`: truncation toward zero. -/
def pyInt (q : Rat) : Int := Int.tdiv q.num (q.den : Int)

/-- Floor of a rational as an integer. -/
def ratFloorI (q : Rat) : Int := Int.fdiv q.num (q.den : Int)

/-- Python `round(x, 2)` (banker's rounding to two decimals). -/
def roundHalfEven (q : Rat) : Int :=
  let f := ratFloorI q
  let frac := qAdd q (mkRat (-f) 1)
  if frac < mkRat 1 2 then f
  else if mkRat 1 2 < frac then f + 1
  else if f % 2 = 0 then f else f + 1

def pyRound2 (x : Rat) : Rat := mkRat (roundHalfEven (qMul x 100)) 100

/-- `sample_interval = int(fps) if fps > 0 else 1`, then clamped to at
least 1. -/
def sample_interval (fps : Rat) : Nat :=
  let si : Int := if fps > 0 then pyInt fps else 1
  if si < 1 then 1 else si.toNat

/-- The sampled frame numbers of the `while frame_number < frame_count`
loop: 0, iv, 2*iv, ... below `fc`.  Structural recursion on a fuel bounded
by `fc` (each step advances by `iv ≥ 1`, so `fc` steps always suffice). -/
def sampleLoop (fc iv : Nat) : Nat → Nat → List Nat
  | 0, _ => []
  | fuel + 1, n => if n < fc then n :: sampleLoop fc iv fuel (n + iv) else []

def sampledFrames (fc iv : Nat) : List Nat := sampleLoop fc iv fc 0

/-- The text-collection loop of `rekognition_detect_text`, appending the
LINE-type detections of each sampled frame in order. -/
def textLoop (env : Nat → List RTextDetection) (fc iv : Nat) (fps : Rat) :
    Nat → Nat → List TextHit
  | 0, _ => []
  | fuel + 1, n =>
    if n < fc then
      ((env n).filter (fun d => d.dtype == "LINE")).map
        (fun d =>
          { text := d.text, confidence := d.confidence
            timestamp := pyRound2 (qDiv (mkRat n 1) fps), frame := n
            bbox := d.bbox })
      ++ textLoop env fc iv fps fuel (n + iv)
    else []

/-- `rekognition_detect_text`: sample one frame per second, keep every
LINE-type detection with its confidence, rounded timestamp and bounding
box.  (There is no confidence filter anywhere in the function.) -/
def rekognition_detect_text (env : Nat → List RTextDetection) (fc : Nat)
    (fps : Rat) : TextDetectResult :=
  let iv := sample_interval fps
  let hits := textLoop env fc iv fps fc 0
  { count := hits.length, texts := hits, total_frames := fc, fps := fps }

theorem sample_interval_pos (fps : Rat) : 1 ≤ sample_interval fps := by
  rw [sample_interval]
  by_cases h : (if fps > 0 then pyInt fps else 1) < 1
  · rw [if_pos h]
  · rw [if_neg h]
    omega

theorem textLoop_eq_flatMap (env : Nat → List RTextDetection) (fc iv : Nat)
    (fps : Rat) : ∀ (fuel n : Nat),
    textLoop env fc iv fps fuel n
      = (sampleLoop fc iv fuel n).flatMap (fun m =>
          ((env m).filter (fun d => d.dtype == "LINE")).map
            (fun d =>
              { text := d.text, confidence := d.confidence
                timestamp := pyRound2 (qDiv (mkRat m 1) fps), frame := m
                bbox := d.bbox })) := by
  intro fuel
  induction fuel with
  | zero => intro n; rfl
  | succ k ih =>
    intro n
    rw [textLoop, sampleLoop]
    by_cases h : n < fc
    · rw [if_pos h, if_pos h, List.flatMap_cons, ih]
    · rw [if_neg h, if_neg h]
      rfl

theorem mem_sampleLoop (fc iv : Nat) (hiv : 0 < iv) : ∀ (fuel n m : Nat),
    fc ≤ n + fuel →
    (m ∈ sampleLoop fc iv fuel n ↔ n ≤ m ∧ m < fc ∧ iv ∣ (m - n)) := by
  intro fuel
  induction fuel with
  | zero =>
    intro n m hfc
    rw [sampleLoop]
    simp only [List.not_mem_nil, false_iff]
    rintro ⟨h1, h2, -⟩
    omega
  | succ k ih =>
    intro n m hfc
    rw [sampleLoop]
    by_cases h : n < fc
    · rw [if_pos h]
      rw [List.mem_cons, ih (n + iv) m (by omega)]
      constructor
      · rintro (rfl | ⟨h1, h2, d, hd⟩)
        · exact ⟨le_refl m, h, 0, by rw [Nat.mul_zero]; omega⟩
        · refine ⟨by omega, h2, d + 1, ?_⟩
          rw [Nat.mul_succ]
          omega
      · rintro ⟨h1, h2, d, hd⟩
        cases d with
        | zero =>
          rw [Nat.mul_zero] at hd
          left
          omega
        | succ d' =>
          rw [Nat.mul_succ] at hd
          right
          refine ⟨by omega, h2, d', by omega⟩
    · rw [if_neg h]
      simp only [List.not_mem_nil, false_iff]
      rintro ⟨h1, h2, -⟩
      omega

/-- Membership in the sampled frame list: exactly the multiples of the
interval below the frame count. -/
theorem mem_sampledFrames (fc iv : Nat) (hiv : 0 < iv) (m : Nat) :
    m ∈ sampledFrames fc iv ↔ m < fc ∧ iv ∣ m := by
  rw [sampledFrames, mem_sampleLoop fc iv hiv fc 0 m (by omega)]
  constructor
  · rintro ⟨-, h2, h3⟩
    exact ⟨h2, by simpa using h3⟩
  · rintro ⟨h2, h3⟩
    exact ⟨Nat.zero_le m, h2, by simpa using h3⟩

/-- A single-frame video whose sole sampled frame reports one LINE detection
with confidence 0, one with confidence 99, and a WORD detection. -/
def c7Env : Nat → List RTextDetection := fun _ =>
  [{ dtype := "LINE", text := "LOW", confidence := 0
     bbox := { left := 0, top := 0, width := 1, height := 1 } },
   { dtype := "LINE", text := "HIGH", confidence := 99
     bbox := { left := 0, top := 0, width := 1, height := 1 } },
   { dtype := "WORD", text := "W", confidence := 90
     bbox := { left := 0, top := 0, width := 1, height := 1 } }]

/-- Claim C7 counterexample: a full-line detection with confidence 0 appears
in the tool's result, so no positive confidence floor is applied —
detections at or below any such floor are NOT discarded (only the
Type == LINE filter exists). -/
theorem c7_line_detection_kept_regardless_of_confidence :
    (rekognition_detect_text c7Env 1 25).texts.map (fun h => (h.text, h.confidence))
      = [("LOW", 0), ("HIGH", 99)] := by
  decide

/-- Claim C7 (amended): the text-detection tool samples one frame per second
(interval `int(fps)`, minimum 1), sends each sampled frame to the external
detection API, and retains EVERY full-line (Type LINE) detection regardless
of its confidence, tagged with its rounded timestamp and bounding box.  The
sampled frames are exactly the multiples of the interval below the frame
count. -/
theorem c7_text_detection_samples_and_keeps_all_lines
    (env : Nat → List RTextDetection) (fc : Nat) (fps : Rat) :
    (rekognition_detect_text env fc fps).texts
      = (sampledFrames fc (sample_interval fps)).flatMap (fun m =>
          ((env m).filter (fun d => d.dtype == "LINE")).map
            (fun d =>
              { text := d.text, confidence := d.confidence
                timestamp := pyRound2 (qDiv (mkRat m 1) fps), frame := m
                bbox := d.bbox }))
    ∧ (rekognition_detect_text env fc fps).count
      = (rekognition_detect_text env fc fps).texts.length
    ∧ 1 ≤ sample_interval fps
    ∧ (0 < fps → sample_interval fps = max 1 (pyInt fps).toNat)
    ∧ (∀ m, m ∈ sampledFrames fc (sample_interval fps)
        ↔ m < fc ∧ sample_interval fps ∣ m) := by
  refine ⟨textLoop_eq_flatMap env fc (sample_interval fps) fps fc 0, rfl,
    sample_interval_pos fps, ?_, ?_⟩
  · intro hpos
    rw [sample_interval, if_pos hpos]
    by_cases h : pyInt fps < 1
    · rw [if_pos h]
      omega
    · rw [if_neg h]
      omega
  · intro m
    exact mem_sampledFrames fc (sample_interval fps)
      (sample_interval_pos fps) m

/-! ## `cost_optimized_aws_vector.py`: CostOptimizedChatBot (lines 419-661) -/

/-- Python `s.strip()`. -/
def pyStrip (s : String) : String :=
  String.mk (((s.data.dropWhile Char.isWhitespace).reverse.dropWhile
    Char.isWhitespace).reverse)

/-- Decimal string of a natural number (Python `str`/f-string). -/
def natToStr (n : Nat) : String := toString n

/-- Decimal string of an integer. -/
def intToStr (i : Int) : String :=
  if i < 0 then "-" ++ natToStr i.natAbs else natToStr i.natAbs

/-- Python `round(x, 3)` (banker's rounding to three decimals). -/
def pyRound3 (x : Rat) : Rat := mkRat (roundHalfEven (qMul x 1000)) 1000

/-- Python `f"\x7bx:.1f\x7d"`: banker-rounded to one decimal, printed with
exactly one decimal digit (non-negative values, which is all the code
formats). -/
def fmt1 (x : Rat) : String :=
  let r := (roundHalfEven (qMul x 10)).natAbs
  natToStr (r / 10) ++ "." ++ natToStr (r % 10)

/-- Python `f"\x7bx:.2f\x7d"` for non-negative values. -/
def fmt2 (x : Rat) : String :=
  let r := (roundHalfEven (qMul x 100)).natAbs
  natToStr (r / 100) ++ "." ++ (if r % 100 < 10 then "0" else "") ++ natToStr (r % 100)

/-- Display string of a rational (stands in for Python float printing in
f-strings; the exact float repr is display glue and not modelled). -/
def ratStr (q : Rat) : String :=
  if q.den == 1 then intToStr q.num else intToStr q.num ++ "/" ++ natToStr q.den

/-- One entry of the `matched_videos` list of a chat response. -/
structure ChatVideoInfo where
  job_id : String
  video_key : String
  bucket : String
  similarity_score : Rat
  semantic_tags : List String
  has_labels : Bool
  has_text : Bool
  has_blackframes : Bool
  deriving Repr, DecidableEq

/-- The response dictionary of `CostOptimizedChatBot.chat`. -/
structure ChatResponse where
  response : String
  matched_videos : List ChatVideoInfo
  context_used : Nat
  query : String
  used_llm : Option Bool := none
  from_cache : Bool := false
  timestamp : String
  deriving Repr, DecidableEq

/-- The in-memory `response_cache` dictionary.  The md5 hex digest of the
cache key is modelled by the key string itself (md5 is injective on the
inputs the system ever hashes; collisions are not modelled). -/
abbrev ChatCache := List (String × ChatResponse)

def cacheLookup (cache : ChatCache) (k : String) : Option ChatResponse :=
  (List.find? (fun p => p.1 == k) cache).map (fun p => p.2)

def cachePut : ChatCache → String → ChatResponse → ChatCache
  | [], k, r => [(k, r)]
  | p :: rest, k, r => if p.1 == k then (k, r) :: rest else p :: cachePut rest k r

theorem cacheLookup_cachePut (cache : ChatCache) (k : String) (r : ChatResponse) :
    cacheLookup (cachePut cache k r) k = some r := by
  induction cache with
  | nil => simp [cacheLookup, cachePut, List.find?]
  | cons p rest ih =>
    rw [cachePut]
    by_cases h : p.1 == k
    · rw [if_pos h]
      simp [cacheLookup, List.find?]
    · rw [if_neg h]
      have hne : (p.1 == k) = false := by simpa using h
      simp only [cacheLookup, List.find?, hne]
      exact ih

/-- `cache_key = f"\x7buser_id or 'anonymous'\x7d:\x7buser_query.lower()\x7d"`. -/
def chatKey (user_id : Option String) (user_query : String) : String :=
  optOr user_id "anonymous" ++ ":" ++ pyLower user_query

/-- `_is_simple_query`. -/
def simple_patterns : List String :=
  ["zeig", "finde", "suche", "welche", "gibt es", "haben", "mit", "videos",
   "bmw", "blackframe", "blau", "blue", "rot", "grün", "gruen", "text"]

def is_simple_query (query : String) : Bool :=
  simple_patterns.any (fun p => pyIn p (pyLower query))

/-- `_generate_simple_response`: the filename helper. -/
def chatFname (path : String) : String :=
  if path == "" then "Unbekanntes Video" else lastSlashPart path

def generic_tags : List String :=
  ["file", "page", "text", "webpage", "computer hardware", "label", "document"]

def filtered_tags (tags : List String) : List String :=
  tags.filterMap fun t =>
    let tl := pyStrip t
    if tl == "" then none
    else if generic_tags.contains (pyLower tl) then none
    else some tl

/-- The per-result summary `_generate_simple_response` builds. -/
structure EnrichedVideo where
  name : String
  tags : List String
  texts : List String
  has_blackframes : Bool
  blackframes_count : Nat
  score : Rat
  deriving Repr, DecidableEq

def enrichResults (results : List SearchResult) : List EnrichedVideo :=
  results.map fun r =>
    { name := chatFname r.video_key
      tags := filtered_tags r.semantic_tags
      texts := r.text_content
      has_blackframes := r.has_blackframes
      blackframes_count := r.blackframes_count
      score := r.score }

/-- German plural suffix `'s' if n != 1 else ''`. -/
def pluralS (n : Nat) : String := if n ≠ 1 then "s" else ""

/-- `_generate_simple_response` (lines 527-627). -/
def generate_simple_response (query : String) (results : List SearchResult) : String :=
  let q := pyLower query
  let count := results.length
  if count = 0 then "Keine Videos gefunden."
  else
    let is_bmw := pyIn "bmw" q
    let is_text := (["text", "schrift", "ocr", "kennzeichen", "license plate"].any
      (fun w => pyIn w q)) && !is_bmw
    let is_black := ["blackframe", "black frame", "schwarze", "schwarzen",
      "dunkle", "blackframes"].any (fun w => pyIn w q)
    let enriched := enrichResults results
    if is_bmw then
      let hits0 := enriched.filter fun e =>
        e.texts.any (fun t => pyIn "bmw" (pyLower t))
      let hits := if hits0.isEmpty then enriched else hits0
      let header := "Ja, BMW kommt in " ++ natToStr hits.length ++ " Video"
        ++ pluralS hits.length ++ " vor:\n"
      let body := String.join ((hits.take 5).map fun e =>
        match List.find? (fun t => pyIn "bmw" (pyLower t)) e.texts with
        | some sample => "• " ++ e.name ++ " – Text: \"" ++ sample ++ "\"\n"
        | none => "• " ++ e.name ++ "\n")
      pyStrip (header ++ body)
    else if is_text then
      let header := "Gefundener Text in " ++ natToStr count ++ " Video"
        ++ pluralS count ++ " (Auszug):\n"
      let body := String.join ((enriched.take 5).map fun e =>
        let texts := (e.texts.filter (fun t => !(t == ""))).take 3
        if texts.isEmpty then "• " ++ e.name ++ ": (kein Text erkannt)\n"
        else "• " ++ e.name ++ ": " ++ String.intercalate ", " texts ++ "\n")
      pyStrip (header ++ body)
    else if is_black then
      let hits := enriched.filter (fun e => e.has_blackframes)
      if hits.isEmpty then "Keine Blackframes in deinen Videos gefunden."
      else
        let header := "Blackframes gefunden in " ++ natToStr hits.length
          ++ " Video" ++ pluralS hits.length ++ ":\n"
        let body := String.join ((hits.take 10).map fun e =>
          if e.blackframes_count ≠ 0 then
            "• " ++ e.name ++ ": " ++ natToStr e.blackframes_count ++ " Blackframes\n"
          else "• " ++ e.name ++ "\n")
        pyStrip (header ++ body)
    else
      let header := "Ich habe " ++ natToStr count ++ " Video" ++ pluralS count
        ++ " gefunden.\n"
      let body := String.join ((enriched.take 5).map fun e =>
        let details :=
          (if !e.tags.isEmpty then [String.intercalate ", " (e.tags.take 3)] else [])
          ++ (if !e.texts.isEmpty then
              ["Text: " ++ String.intercalate ", " (e.texts.take 2)] else [])
        if details.isEmpty then "• " ++ e.name ++ "\n"
        else "• " ++ e.name ++ " – " ++ String.intercalate ", " details ++ "\n")
      pyStrip (header ++ body)

/-- `_generate_bedrock_response` outcome: `some text` when the Bedrock call
succeeds, `none` when it raises (the except returns the canned count
message). -/
def generate_bedrock_response (results : List SearchResult)
    (bedrock : Option String) : String :=
  match bedrock with
  | some t => t
  | none => "Ich habe " ++ natToStr results.length
      ++ " Videos gefunden, aber kann sie gerade nicht detailliert beschreiben."

/-- The `"keine passenden Videos"` response of the zero-hit branch (NOT
cached by the code). -/
def noMatchResponse (user_query ts : String) : ChatResponse :=
  { response := "Ich konnte keine passenden Videos finden. Versuchen Sie andere Suchbegriffe."
    matched_videos := []
    context_used := 0
    query := user_query
    timestamp := ts }

/-- The response built (and cached) when the search returned results. -/
def freshChatResponse (user_query : String) (search_results : List SearchResult)
    (bedrock : Option String) (ts : String) : ChatResponse :=
  let use_llm := !is_simple_query user_query
  let response_text :=
    if is_simple_query user_query then generate_simple_response user_query search_results
    else generate_bedrock_response search_results bedrock
  let context_videos := search_results.map fun r =>
    { job_id := r.job_id
      video_key := r.video_key
      bucket := r.bucket
      similarity_score := pyRound3 r.score
      semantic_tags := r.semantic_tags
      has_labels := r.has_labels
      has_text := r.has_text
      has_blackframes := r.has_blackframes : ChatVideoInfo }
  { response := response_text
    matched_videos := context_videos
    context_used := context_videos.length
    query := user_query
    used_llm := some (use_llm == true)
    timestamp := ts }

/-- `CostOptimizedChatBot.chat` (lines 435-517): cache keyed by
(user-or-anonymous, lower-cased query); cache hit returns the stored
response with `from_cache = True` (also mutating the stored entry); a miss
searches, returns the un-cached no-match response on zero hits, and
otherwise builds and caches the response.  The Bedrock call and the clock
are environment arguments. -/
def chat (cache : ChatCache) (store : List SearchItem) (user_query : String)
    (context_limit : Nat) (user_id session_id : Option String)
    (bedrock : Option String) (ts : String) : ChatResponse × ChatCache :=
  match cacheLookup cache (chatKey user_id user_query) with
  | some cached =>
    ({ cached with from_cache := true },
     cachePut cache (chatKey user_id user_query) { cached with from_cache := true })
  | none =>
    if (semantic_search store user_query context_limit user_id session_id).isEmpty then
      (noMatchResponse user_query ts, cache)
    else
      (freshChatResponse user_query
         (semantic_search store user_query context_limit user_id session_id) bedrock ts,
       cachePut cache (chatKey user_id user_query)
         (freshChatResponse user_query
           (semantic_search store user_query context_limit user_id session_id) bedrock ts))

/-! ## Claim C10: the chat response cache -/

def c10Job : SearchItem :=
  { job_id := "job-f", user_id := some "u1", session_id := some "sB"
    s3_key := "v/ferrari.mp4", s3_bucket := "bkt"
    searchable_content := "ferrari f40 clip"
    semantic_tags := [], text_content := []
    has_labels := true, has_text := false, has_blackframes := false
    analysis_type := "complete", blackframes_count := 0
    search_updated_at := 10, updated_at := 10 }

/-- Claim C10 counterexample: when the first call finds nothing, its
response is NOT cached, so a second call with the identical query text
re-runs the search against the store and returns a different, non-cached
response once a matching job has been indexed in between — contradicting
the claim that any two identically-worded calls return the identical cached
response. -/
theorem c10_zero_hit_call_not_cached :
    (chat [] [] "ferrari" 5 (some "u1") (some "sA") none "t1").2 = []
    ∧ (chat [] [] "ferrari" 5 (some "u1") (some "sA") none "t1").1.response
      = "Ich konnte keine passenden Videos finden. Versuchen Sie andere Suchbegriffe."
    ∧ (chat (chat [] [] "ferrari" 5 (some "u1") (some "sA") none "t1").2
        [c10Job] "ferrari" 5 (some "u1") (some "sB") (some "LLM answer") "t2").1.from_cache
      = false
    ∧ (chat (chat [] [] "ferrari" 5 (some "u1") (some "sA") none "t1").2
        [c10Job] "ferrari" 5 (some "u1") (some "sB") (some "LLM answer") "t2").1.response
      = "LLM answer"
    ∧ (chat (chat [] [] "ferrari" 5 (some "u1") (some "sA") none "t1").2
        [c10Job] "ferrari" 5 (some "u1") (some "sB") (some "LLM answer") "t2").1.matched_videos.length
      = 1 := by
  refine ⟨rfl, rfl, by decide, by decide, by decide⟩

/-- Claim C10 (amended): the cache is keyed solely by (user-or-anonymous,
lower-cased query text) — the session id, the context limit and the job
store are not part of the key and no invalidation exists — but a response
is stored only when the call's search returned at least one result.  Under
that proviso, a second call with the identical query text returns the first
call's cached response (with `from_cache` set), regardless of the session
id, the context limit, the Bedrock behaviour and any analysis results
indexed in between. -/
theorem c10_cache_hit_ignores_session_and_new_results (cache : ChatCache)
    (store store' : List SearchItem) (q : String) (cl cl' : Nat)
    (uid sidA sidB : Option String) (b1 b2 : Option String) (t1 t2 : String)
    (hmiss : cacheLookup cache (chatKey uid q) = none)
    (hhits : (semantic_search store q cl uid sidA).isEmpty = false) :
    (chat (chat cache store q cl uid sidA b1 t1).2 store' q cl' uid sidB b2 t2).1
      = { (chat cache store q cl uid sidA b1 t1).1 with from_cache := true } := by
  have h1 : chat cache store q cl uid sidA b1 t1
      = (freshChatResponse q (semantic_search store q cl uid sidA) b1 t1,
         cachePut cache (chatKey uid q)
           (freshChatResponse q (semantic_search store q cl uid sidA) b1 t1)) := by
    rw [chat.eq_def, hmiss]
    simp only [hhits, Bool.false_eq_true, if_false]
  rw [h1, chat.eq_def]
  rw [cacheLookup_cachePut]

/-- Witness for the amended C10: the first call (store holds the matching
job) caches; the second call (different session, empty store, no Bedrock)
returns the cached response. -/
theorem c10_cache_hit_ignores_session_and_new_results_witness :
    (chat (chat [] [c10Job] "ferrari" 5 (some "u1") (some "sB") (some "LLM") "t1").2
        [] "ferrari" 3 (some "u1") (some "sA") none "t2").1
      = { (chat [] [c10Job] "ferrari" 5 (some "u1") (some "sB") (some "LLM") "t1").1
          with from_cache := true } :=
  c10_cache_hit_ignores_session_and_new_results [] [c10Job] [] "ferrari" 5 3
    (some "u1") (some "sB") (some "sA") (some "LLM") none "t1" "t2"
    (by decide) (by decide)

/-! ## String non-emptiness helpers -/

theorem append_left_ne_empty (s t : String) (h : s.length ≠ 0) : s ++ t ≠ "" := by
  intro he
  have hlen := congrArg String.length he
  rw [String.length_append] at hlen
  have h0 : String.length "" = 0 := rfl
  rw [h0] at hlen
  omega

theorem append_right_ne_empty (s t : String) (h : t.length ≠ 0) : s ++ t ≠ "" := by
  intro he
  have hlen := congrArg String.length he
  rw [String.length_append] at hlen
  have h0 : String.length "" = 0 := rfl
  rw [h0] at hlen
  omega

/-! ## `api.py`: session_status_message (lines 420-465) -/

def pyUpperStr (s : String) : String := pyUpper s

def running_like : List String := ["queued", "running", "processing", "pending"]

def done_like : List String := ["completed", "done"]

def failed_like : List String := ["failed", "error"]

/-- The session scan: jobs of this user and session, in table order. -/
def sessionItems (store : JobStore) (uid sid : Option String) : List JobItem :=
  store.filter fun it => it.user_id == uid && it.session_id == sid

/-- Count the items whose normalized status is one of `names`. -/
def statusCount (items : List JobItem) (names : List String) : Nat :=
  (items.filter fun it => names.contains (pyLower (it.status.getD ""))).length

/-- One display line of the progress narration. -/
def sessionLine (it : JobItem) : String :=
  "• "
  ++ (if !(it.job_id == "") then String.mk (it.job_id.data.take 8) ++ "..."
      else "unknown")
  ++ " — "
  ++ (if pyIn "/" (it.s3_key.getD "") then lastSlashPart (it.s3_key.getD "")
      else (if (it.s3_key.getD "") == "" then "video" else it.s3_key.getD ""))
  ++ " [" ++ pyUpperStr (it.status.getD "pending") ++ "]"

/-- The narration text for a session with active (or no completed) jobs. -/
def sessionMsgText (items : List JobItem) : String :=
  "🔧 Ihre Analyse läuft: " ++ natToStr (statusCount items running_like)
  ++ " aktiv, " ++ natToStr (statusCount items done_like) ++ " fertig, "
  ++ natToStr (statusCount items failed_like)
  ++ " fehlgeschlagen (insgesamt " ++ natToStr items.length ++ ").\n"
  ++ "Sobald eine Analyse abgeschlossen ist, kann ich Inhalte finden.\n\n"
  ++ String.intercalate "\n" ((items.take 3).map sessionLine)

/-- `session_status_message`: a progress narration for the session, `none`
when identities are missing, no jobs exist, or nothing is active and
something already completed. -/
def session_status_message (store : JobStore) (uid sid : Option String) :
    Option String :=
  if !optTruthy uid || !optTruthy sid then none
  else if (sessionItems store uid sid).isEmpty then none
  else if statusCount (sessionItems store uid sid) running_like > 0
      || statusCount (sessionItems store uid sid) done_like = 0 then
    some (sessionMsgText (sessionItems store uid sid))
  else none

/-! ## `api.py`: basic_rag_fallback (lines 660-825)

The DynamoDB scan and the per-job JSON parsing glue deliver parsed job
records (jobs whose result failed to parse arrive with `result_ok = false`
and are skipped like the code's per-job `continue`). -/

structure RagTextItem where
  text : String
  confidence : Rat
  timestamp : Rat
  frame : Nat
  deriving Repr, DecidableEq

structure RagLabelItem where
  name : String
  max_confidence : Rat
  categories : List String
  deriving Repr, DecidableEq

structure RagJob where
  job_id : String
  status : String
  result_ok : Bool
  filename : String
  text_detections : List RagTextItem
  unique_labels : List RagLabelItem
  deriving Repr, DecidableEq

/-- One element of a job's `matched_items` list; the constructors carry
exactly the keys the code stores for each match type. -/
inductive RagMatch where
  | bmwText (text : String) (confidence : Rat) (timestamp : Rat) (frame : Nat)
  | textHit (text : String) (confidence : Rat) (timestamp : Rat)
  | carLabel (label : String) (confidence : Rat) (categories : List String)
  | personLabel (label : String) (confidence : Rat) (categories : List String)
  | generalLabel (label : String) (confidence : Rat) (categories : List String)
  deriving Repr, DecidableEq

structure RagHit where
  filename : String
  score : Rat
  matched_items : List RagMatch
  job_id : String
  deriving Repr, DecidableEq

structure RagFlags where
  is_bmw : Bool
  is_car : Bool
  is_text : Bool
  is_person : Bool
  is_general : Bool
  deriving Repr, DecidableEq

def ragFlagsOf (query : String) : RagFlags :=
  let ql := pyLower query
  { is_bmw := pyIn "bmw" ql
    is_car := ["car", "auto", "vehicle", "fahrzeug"].any (fun t => pyIn t ql)
    is_text := ["text", "schrift", "wort", "buchstabe"].any (fun t => pyIn t ql)
    is_person := ["person", "personen", "menschen", "leute", "mann", "frau",
      "adult", "male", "female"].any (fun t => pyIn t ql)
    is_general := ["welche", "was", "zeigen", "enthalten", "content",
      "inhalt"].any (fun t => pyIn t ql) }

/-- The relevance-scoring loops over one job's text detections and labels. -/
def ragScoreJob (f : RagFlags) (j : RagJob) : Rat × List RagMatch :=
  let st := j.text_detections.foldl
    (fun (acc : Rat × List RagMatch) ti =>
      if f.is_bmw && pyIn "bmw" (pyLower ti.text) then
        (qAdd acc.1 (qMul ti.confidence 3),
         acc.2 ++ [RagMatch.bmwText ti.text ti.confidence ti.timestamp ti.frame])
      else if f.is_text then
        (qAdd acc.1 (qMul ti.confidence (mkRat 1 2)),
         acc.2 ++ [RagMatch.textHit ti.text ti.confidence ti.timestamp])
      else acc)
    ((0 : Rat), ([] : List RagMatch))
  j.unique_labels.foldl
    (fun acc li =>
      let nm := pyLower li.name
      if f.is_car && ["car", "vehicle", "auto"].any (fun t => pyIn t nm) then
        (qAdd acc.1 (qMul li.max_confidence (mkRat 4 5)),
         acc.2 ++ [RagMatch.carLabel li.name li.max_confidence li.categories])
      else if f.is_person && ["person", "adult", "man", "woman", "male",
          "female", "face", "head"].any (fun t => pyIn t nm) then
        (qAdd acc.1 (qMul li.max_confidence 1),
         acc.2 ++ [RagMatch.personLabel li.name li.max_confidence li.categories])
      else if f.is_general then
        (qAdd acc.1 (qMul li.max_confidence (mkRat 3 10)),
         acc.2 ++ [RagMatch.generalLabel li.name li.max_confidence li.categories])
      else acc)
    st

def isBmwTextMatch : RagMatch → Bool
  | .bmwText _ _ _ _ => true
  | _ => false

def ragNoMatchMsg : String :=
  "🔍 **No matches found** in your analyzed videos. Upload and analyze videos first!"

def ragUnavailableMsg : String :=
  "🤖 RAG search temporarily unavailable. Please try again!"

def ragBmwResponse (bmw_videos : List RagHit) : String :=
  "🚗 **BMW Videos Found (Fallback Mode):**\n\n"
  ++ String.join ((bmw_videos.take 3).map fun v =>
    "📹 **" ++ v.filename ++ "**\n"
    ++ String.join (((v.matched_items.filter isBmwTextMatch).take 2).map fun m =>
      match m with
      | .bmwText t c ts _ =>
        "   • BMW text \"**" ++ t ++ "**\" at " ++ ratStr ts
        ++ "s (confidence: " ++ fmt1 c ++ "%)\n"
      | _ => "")
    ++ "   • Relevance Score: " ++ fmt1 v.score ++ "\n\n")

/-- The line the general-results formatter produces for one match; the
text lookup on a label-only match raises `KeyError`, which the outer
`except` turns into the canned unavailable message. -/
def ragGeneralLine : RagMatch → Except Unit String
  | .bmwText t _ ts _ => .ok ("   • BMW: \"" ++ t ++ "\" at " ++ ratStr ts ++ "s\n")
  | .carLabel l c _ => .ok ("   • Car: " ++ l ++ " (" ++ fmt1 c ++ "%)\n")
  | .textHit t _ _ => .ok ("   • Text: \"" ++ t ++ "\"\n")
  | .personLabel _ _ _ => .error ()
  | .generalLabel _ _ _ => .error ()

def ragGeneralBody (sorted : List RagHit) : Except Unit String :=
  (List.enumFrom 1 (sorted.take 3)).foldl
    (fun acc p =>
      match acc with
      | .error e => .error e
      | .ok s =>
        match (p.2.matched_items.take 2).foldl
            (fun acc2 m =>
              match acc2 with
              | .error e => .error e
              | .ok s2 =>
                match ragGeneralLine m with
                | .ok l => .ok (s2 ++ l)
                | .error e => .error e)
            (Except.ok "") with
        | .ok ls => .ok (s ++ natToStr p.1 ++ ". **" ++ p.2.filename ++ "**\n" ++ ls ++ "\n")
        | .error e => .error e)
    (Except.ok "")

def ragGeneralResponse (sorted : List RagHit) : String :=
  match ragGeneralBody sorted with
  | .ok b => "🎬 **Analysis Results (Fallback Mode - " ++ natToStr sorted.length
      ++ " videos):**\n\n" ++ b
  | .error _ => ragUnavailableMsg

/-- Core of `basic_rag_fallback` after flag extraction and scoring. -/
def basicRagCore (f : RagFlags) (sorted : List RagHit) : String :=
  if sorted.isEmpty then ragNoMatchMsg
  else if f.is_bmw
      && !(sorted.filter fun h => h.matched_items.any isBmwTextMatch).isEmpty then
    ragBmwResponse (sorted.filter fun h => h.matched_items.any isBmwTextMatch)
  else ragGeneralResponse sorted

/-- The relevance filter: completed parsed jobs scoring above 15. -/
def ragRelevant (f : RagFlags) (jobs : List RagJob) : List RagHit :=
  jobs.filterMap fun j =>
    if (j.status == "done" || j.status == "completed") && j.result_ok then
      if (ragScoreJob f j).1 > 15 then
        some { filename := j.filename, score := (ragScoreJob f j).1
               matched_items := (ragScoreJob f j).2, job_id := j.job_id }
      else none
    else none

def basic_rag_fallback (jobs : List RagJob) (query : String) : String :=
  basicRagCore (ragFlagsOf query)
    (sortDescBy (fun h => h.score) (ragRelevant (ragFlagsOf query) jobs))

theorem basicRagCore_ne_empty (f : RagFlags) (sorted : List RagHit) :
    basicRagCore f sorted ≠ "" := by
  rw [basicRagCore]
  by_cases h1 : sorted.isEmpty
  · rw [if_pos h1]
    decide
  · rw [if_neg h1]
    by_cases h2 : (f.is_bmw
        && !(sorted.filter fun h => h.matched_items.any isBmwTextMatch).isEmpty) = true
    · rw [if_pos h2, ragBmwResponse]
      apply append_left_ne_empty
      decide
    · rw [if_neg h2, ragGeneralResponse]
      cases hb : ragGeneralBody sorted with
      | ok b =>
        apply append_left_ne_empty
        simp only [String.length_append]
        have hpos : ("🎬 **Analysis Results (Fallback Mode - " : String).length ≠ 0 := by
          decide
        omega
      | error e =>
        show ragUnavailableMsg ≠ ""
        decide

theorem basic_rag_fallback_ne_empty (jobs : List RagJob) (query : String) :
    basic_rag_fallback jobs query ≠ "" :=
  basicRagCore_ne_empty _ _

/-- Every produced session status message is non-empty. -/
theorem session_status_message_ne_empty (store : JobStore)
    (uid sid : Option String) (s : String)
    (h : session_status_message store uid sid = some s) : s ≠ "" := by
  rw [session_status_message] at h
  by_cases h1 : (!optTruthy uid || !optTruthy sid) = true
  · rw [if_pos h1] at h
    exact absurd h (by simp)
  · rw [if_neg h1] at h
    by_cases h2 : (sessionItems store uid sid).isEmpty = true
    · rw [if_pos h2] at h
      exact absurd h (by simp)
    · rw [if_neg h2] at h
      by_cases h3 : (decide (statusCount (sessionItems store uid sid) running_like > 0)
          || decide (statusCount (sessionItems store uid sid) done_like = 0)) = true
      · rw [if_pos h3] at h
        have hs := Option.some.inj h
        rw [← hs, sessionMsgText]
        apply append_left_ne_empty
        simp only [String.length_append]
        have hpos : ("🔧 Ihre Analyse läuft: " : String).length ≠ 0 := by decide
        omega
      · rw [if_neg h3] at h
        exact absurd h (by simp)

/-! ## `api.py`: the Bedrock context and chatbot (lines 516-584, 828-1112) -/

/-- One job as the context-building scan delivers it, after the
DynamoDB-shape unwrapping glue: status, whether its result parsed, the
resolved display name, the (label, max_confidence) pairs of
`label_detection.unique_labels`, the (text, confidence) pairs of
`text_detection.text_detections`, and the blackframe summary. -/
structure CtxJob where
  job_id : String
  status : String
  result_ok : Bool
  video_name : String
  unique_labels : List (String × Rat)
  text_items : List (String × Rat)
  blackframes_count : Nat
  blackframe_timestamps : List Rat
  deriving Repr, DecidableEq

/-- The per-video summary `call_bedrock_chatbot` extracts: top-15 labels
with confidence above 70, top-10 texts with confidence above 50, and up to
three blackframe sample timestamps. -/
structure CompletedCtx where
  name : String
  labels : List String
  texts : List String
  blackframes_count : Nat
  blackframe_samples : List Rat
  job_id : String
  deriving Repr, DecidableEq

def mkCompletedCtx (j : CtxJob) : CompletedCtx :=
  { name := j.video_name
    labels := ((j.unique_labels.take 15).filter (fun p => p.2 > 70)).map (fun p => p.1)
    texts := ((j.text_items.take 10).filter (fun p => p.2 > 50)).map (fun p => p.1)
    blackframes_count := j.blackframes_count
    blackframe_samples := j.blackframe_timestamps.take 3
    job_id := j.job_id }

/-- The formatted block for one video of the context. -/
def ctxVideoBlock (i : Nat) (v : CompletedCtx) : String :=
  "\n" ++ natToStr i ++ ". Video: " ++ v.name
  ++ (if !v.labels.isEmpty then
        "\n   Labels detected: " ++ String.intercalate ", " v.labels
      else "")
  ++ (if !v.texts.isEmpty then
        "\n   Text detected: " ++ String.intercalate ", " v.texts
      else "")
  ++ (if v.blackframes_count > 0 then
        (if !v.blackframe_samples.isEmpty then
          "\n   Blackframes: " ++ natToStr v.blackframes_count ++ " (e.g., "
          ++ String.intercalate ", "
              ((v.blackframe_samples.take 3).map (fun t => fmt1 t ++ "s")) ++ ")"
        else "\n   Blackframes: " ++ natToStr v.blackframes_count)
      else "")
  ++ "\n   Job ID: " ++ v.job_id

/-- The completed jobs the context keeps: status exactly `"done"` (the scan
accepts `"completed"` too, but the client-side check does not) with a
truthy, parseable result. -/
def ctxCompleted (jobs : List CtxJob) : List CompletedCtx :=
  jobs.filterMap fun j =>
    if j.status == "done" && j.result_ok then some (mkCompletedCtx j) else none

/-- `video_context` (lines 866-1020); the `.error` case is the inner
`except` around the job fetch. -/
def build_video_context (ctx : Except Unit (List CtxJob)) : String :=
  match ctx with
  | .error _ => "\n\nUSER'S ANALYZED VIDEOS: Unable to fetch video data."
  | .ok jobs =>
    if (ctxCompleted jobs).isEmpty then
      "\n\nUSER'S ANALYZED VIDEOS: No completed video analysis found. User should upload and analyze videos first."
    else
      "\n\nUSER'S ANALYZED VIDEOS (" ++ natToStr (ctxCompleted jobs).length
      ++ " videos):\n"
      ++ String.join ((List.enumFrom 1 ((ctxCompleted jobs).take 5)).map
          (fun p => ctxVideoBlock p.1 p.2))
      ++ "\n\nThe user can ask questions about these "
      ++ natToStr (ctxCompleted jobs).length ++ " analyzed videos."

/-- Python `str(bool)` inside an f-string. -/
def pyBoolStr (b : Bool) : String := if b then "True" else "False"

/-- The environment of one `smart_rag_search` call: either the forced
vector-database path works (a fresh chatbot over the post-migration store),
or its `try` fails with an error message, or the whole function body fails
— both failures fall back to `basic_rag_fallback` over the scanned jobs. -/
inductive RagEnv where
  | vectorOk (cache : ChatCache) (store : List SearchItem) (bedrock : Option String)
      (ts : String)
  | vectorError (msg : String) (jobs : List RagJob)
  | totalFailure (jobs : List RagJob)

/-- The per-match debug line of `smart_rag_search`. -/
def videoDebugLine (i : Nat) (v : ChatVideoInfo) : String :=
  "• Video " ++ natToStr i ++ ": " ++ String.mk (v.job_id.data.take 8)
  ++ "... (Score: " ++ fmt2 v.similarity_score ++ ")\n"

/-- The debug suffix appended to every vector-path response. -/
def ragDebugInfo (matched : List ChatVideoInfo) (from_cache : Bool)
    (testCount : Nat) : String :=
  "\n\n🎯 **PROFESSIONAL RAG CHATBOT:**\n"
  ++ "• Chatbot found " ++ natToStr matched.length ++ " matches\n"
  ++ "• Response cached: " ++ pyBoolStr from_cache ++ "\n"
  ++ "• Query processed by: Professional Vector DB RAG\n"
  ++ "• Test search results: " ++ natToStr testCount ++ " BMW videos\n"
  ++ String.join ((List.enumFrom 1 (matched.take 3)).map
      (fun p => videoDebugLine p.1 p.2))

/-- `smart_rag_search` (api.py lines 516-584). -/
def smart_rag_search (env : RagEnv) (query : String) (uid sid : Option String) :
    String :=
  match env with
  | .vectorOk cache store bedrock ts =>
    (chat cache store query 5 uid sid bedrock ts).1.response
    ++ ragDebugInfo (chat cache store query 5 uid sid bedrock ts).1.matched_videos
        (chat cache store query 5 uid sid bedrock ts).1.from_cache
        (semantic_search store "BMW" 1 uid none).length
  | .vectorError msg jobs =>
    "🚨 **VECTOR DB ERROR:** " ++ msg ++ "\n\nFallback to basic RAG:\n"
    ++ basic_rag_fallback jobs query
  | .totalFailure jobs => basic_rag_fallback jobs query

/-- Outcome of the Bedrock invocation in `call_bedrock_chatbot`: a timeout,
a successful response body (`content` list), or any other exception caught
by the outer handler. -/
inductive BedrockOutcome where
  | timeout
  | ok (content : List String)
  | exn
  deriving Repr, DecidableEq

/-- The environment of one `call_bedrock_chatbot` call. -/
structure CbcEnv where
  rag : RagEnv
  statusStore : JobStore
  ctx : Except Unit (List CtxJob)
  bedrock : BedrockOutcome

def rag_triggers : List String :=
  ["bmw", "car", "auto", "vehicle", "text", "videos", "analyse",
   "personen", "person", "menschen", "leute", "mann", "frau",
   "labels", "objekte", "inhalt", "content", "welche", "was", "wer",
   "enthalten", "zeigen", "detect", "found", "logo", "emblem"]

def noMatchPhrases : List String :=
  ["no matches found", "keine passenden", "keine treffer"]

def bmwTimeoutMsg (ctxLen : Nat) : String :=
  "🚗 **BMW Videos Found:** Based on your analyzed videos, I found BMW-related content in:\n\n📹 **210518_G26M_OPC5_25Sec_4x5_CLEAN_Webmix.mp4**\n- Contains BMW text/logo detected\n- Labels: Logo, Emblem, Symbol, Car, Transportation, Vehicle\n\n📹 **210518_G26M_OPC5_25Sec_4x5_ENG_Webmix.mp4** \n- BMW text elements identified\n- Automotive content detected\n\n*Analysis shows "
  ++ natToStr ctxLen ++ " characters of BMW-related video data available.*"

def videoTipMsg : String :=
  "🎬 **Video Analysis Tip:** To find videos with specific content like cars, upload your videos first and run our **Complete Analysis**! This will detect objects, labels, and text in your videos. Then I can help you search through the analyzed content. Try uploading a video via the Dashboard!"

def quickResponseMsg : String :=
  "🤖 **Quick Response:** I\x27m here to help with video analysis! While I process your request, try these features: **🎬 Video Analysis**, **📊 Blackframe Detection**, or **🔍 Label Recognition**. Upload a video to get started!"

def emptyContentMsg : String :=
  "🤖 I\x27m here to help with video analysis! Ask me about blackframe detection, label recognition, or text extraction from videos."

def blackframeHelpMsg : String :=
  "🎬 Use our Blackframe Detection tool to find dark or black frames in your videos! Upload a video and select \x27Detect Blackframes\x27 to get started."

def labelHelpMsg : String :=
  "🏷️ Our Label Detection uses AWS Rekognition to identify objects, people, and activities in your videos. Upload a video and select \x27Analyze Video Complete\x27 for full analysis!"

def textHelpMsg : String :=
  "📝 We can extract text from video frames using AWS Rekognition Text Detection. Upload your video and run a complete analysis to see all detected text!"

def greetingHelpMsg : String :=
  "👋 Hi! I\x27m your video analysis assistant. I can help you with:\n• 🎬 Blackframe Detection\n• 🏷️ Object & Label Recognition\n• 📝 Text Extraction\n\nUpload a video to get started!"

def genericFallbackMsg (message : String) : String :=
  "🤖 I\x27m your video analysis assistant! I can help with blackframe detection, label recognition, and text extraction. What would you like to analyze? Your question: "
  ++ message

/-- The Bedrock section of `call_bedrock_chatbot` (lines 857-1112): build
the video context, invoke the model, and on timeout/missing content/any
exception return the intent-sensitive canned answer. -/
def bedrock_block (env : CbcEnv) (message message_lower : String) : String :=
  match env.bedrock with
  | .timeout =>
    if pyIn "bmw" message_lower then
      bmwTimeoutMsg (build_video_context env.ctx).length
    else if ["video", "videos", "autos", "cars", "analyse"].any
        (fun w => pyIn w message_lower) then videoTipMsg
    else quickResponseMsg
  | .ok content =>
    match content with
    | t :: _ => t
    | [] => emptyContentMsg
  | .exn =>
    if ["blackframe", "black frame", "dark"].any (fun w => pyIn w message_lower) then
      blackframeHelpMsg
    else if ["label", "object", "detect", "recognize"].any
        (fun w => pyIn w message_lower) then labelHelpMsg
    else if ["text", "ocr", "read"].any (fun w => pyIn w message_lower) then
      textHelpMsg
    else if ["hello", "hi", "help"].any (fun w => pyIn w message_lower) then
      greetingHelpMsg
    else genericFallbackMsg message

/-- `call_bedrock_chatbot` (lines 828-1112): RAG-first short-circuit, then
session-progress narration, then the Bedrock path. -/
def call_bedrock_chatbot (env : CbcEnv) (message : String)
    (uid sid : Option String) : String :=
  if rag_triggers.any (fun t => pyIn t (pyLower message)) then
    if noMatchPhrases.all
        (fun p => !(pyIn p (pyLower (smart_rag_search env.rag message uid sid)))) then
      smart_rag_search env.rag message uid sid
    else
      match session_status_message env.statusStore uid sid with
      | some s => s
      | none => bedrock_block env message (pyLower message)
  else bedrock_block env message (pyLower message)

/-- `ask_agent` (api.py lines 1210-1227): returns the chatbot answer, or the
canned unavailability message when the call raises (`crashed`). -/
def ask_agent (env : CbcEnv) (crashed : Bool) (message : String)
    (uid sid : Option String) : String :=
  if crashed then
    "🚧 ChatBot temporarily unavailable. Meanwhile, you can use Blackframe Detection! Your question was: "
    ++ message
  else call_bedrock_chatbot env message uid sid

/-! ## Claim C9: fallback completeness of the conversational layer -/

theorem smart_rag_search_ne_empty (env : RagEnv) (query : String)
    (uid sid : Option String) : smart_rag_search env query uid sid ≠ "" := by
  cases env with
  | vectorOk cache store bedrock ts =>
    apply append_right_ne_empty
    rw [ragDebugInfo]
    simp only [String.length_append]
    have hpos : ("\n\n🎯 **PROFESSIONAL RAG CHATBOT:**\n" : String).length ≠ 0 := by
      decide
    omega
  | vectorError msg jobs =>
    apply append_left_ne_empty
    simp only [String.length_append]
    have hpos : ("🚨 **VECTOR DB ERROR:** " : String).length ≠ 0 := by decide
    omega
  | totalFailure jobs => exact basic_rag_fallback_ne_empty jobs query

theorem bedrock_block_ne_empty (env : CbcEnv) (message message_lower : String)
    (hbedrock : ∀ (t : String) (rest : List String),
      env.bedrock = .ok (t :: rest) → t ≠ "") :
    bedrock_block env message message_lower ≠ "" := by
  rw [bedrock_block]
  cases hb : env.bedrock with
  | timeout =>
    show (if pyIn "bmw" message_lower then
        bmwTimeoutMsg (build_video_context env.ctx).length
      else if ["video", "videos", "autos", "cars", "analyse"].any
          (fun w => pyIn w message_lower) then videoTipMsg
      else quickResponseMsg) ≠ ""
    by_cases h1 : pyIn "bmw" message_lower = true
    · rw [if_pos h1, bmwTimeoutMsg]
      apply append_right_ne_empty
      decide
    · rw [if_neg h1]
      by_cases h2 : (["video", "videos", "autos", "cars", "analyse"].any
          (fun w => pyIn w message_lower)) = true
      · rw [if_pos h2]
        decide
      · rw [if_neg h2]
        decide
  | ok content =>
    cases content with
    | nil =>
      show emptyContentMsg ≠ ""
      decide
    | cons t rest =>
      show t ≠ ""
      exact hbedrock t rest hb
  | exn =>
    show (if ["blackframe", "black frame", "dark"].any
          (fun w => pyIn w message_lower) then blackframeHelpMsg
      else if ["label", "object", "detect", "recognize"].any
          (fun w => pyIn w message_lower) then labelHelpMsg
      else if ["text", "ocr", "read"].any (fun w => pyIn w message_lower) then
        textHelpMsg
      else if ["hello", "hi", "help"].any (fun w => pyIn w message_lower) then
        greetingHelpMsg
      else genericFallbackMsg message) ≠ ""
    by_cases h1 : (["blackframe", "black frame", "dark"].any
        (fun w => pyIn w message_lower)) = true
    · rw [if_pos h1]
      decide
    · rw [if_neg h1]
      by_cases h2 : (["label", "object", "detect", "recognize"].any
          (fun w => pyIn w message_lower)) = true
      · rw [if_pos h2]
        decide
      · rw [if_neg h2]
        by_cases h3 : (["text", "ocr", "read"].any
            (fun w => pyIn w message_lower)) = true
        · rw [if_pos h3]
          decide
        · rw [if_neg h3]
          by_cases h4 : (["hello", "hi", "help"].any
              (fun w => pyIn w message_lower)) = true
          · rw [if_pos h4]
            decide
          · rw [if_neg h4, genericFallbackMsg]
            apply append_left_ne_empty
            decide

/-- Claim C9: for every input message to the ask operation, the returned
answer is non-empty — even when retrieval yields zero hits, the tenant has
zero jobs, and the generative call fails or times out — because every
branch ends in a templated, narrated, generative or canned-fallback string.
(Quantified over every environment in which a SUCCESSFUL generative reply
is itself non-empty; all failure outcomes produce canned non-empty
answers.) -/
theorem c9_ask_agent_never_empty (env : CbcEnv) (crashed : Bool)
    (message : String) (uid sid : Option String)
    (hbedrock : ∀ (t : String) (rest : List String),
      env.bedrock = .ok (t :: rest) → t ≠ "") :
    ask_agent env crashed message uid sid ≠ "" := by
  rw [ask_agent]
  by_cases hc : crashed = true
  · rw [if_pos hc]
    apply append_left_ne_empty
    decide
  · rw [if_neg hc, call_bedrock_chatbot]
    by_cases ht : (rag_triggers.any fun t => pyIn t (pyLower message)) = true
    · rw [if_pos ht]
      by_cases hn : (noMatchPhrases.all fun p =>
          !(pyIn p (pyLower (smart_rag_search env.rag message uid sid)))) = true
      · rw [if_pos hn]
        exact smart_rag_search_ne_empty env.rag message uid sid
      · rw [if_neg hn]
        cases hs : session_status_message env.statusStore uid sid with
        | some s => exact session_status_message_ne_empty env.statusStore uid sid s hs
        | none => exact bedrock_block_ne_empty env message (pyLower message) hbedrock
    · rw [if_neg ht]
      exact bedrock_block_ne_empty env message (pyLower message) hbedrock

/-- A worst-case environment: retrieval falls back over zero jobs, the
tenant has no jobs at all, the context fetch fails and Bedrock raises. -/
def c9WitnessEnv : CbcEnv :=
  { rag := .totalFailure [], statusStore := [], ctx := .error ()
    bedrock := .exn }

/-- Witness for C9 at a concrete worst-case input. -/
theorem c9_ask_agent_never_empty_witness :
    ask_agent c9WitnessEnv false "hi" none none ≠ "" :=
  c9_ask_agent_never_empty c9WitnessEnv false "hi" none none
    (fun t rest h => BedrockOutcome.noConfusion h)

end Proovid
